import Mathlib

/-!
Verification development for the tax-commander repository.

The pure computational core of the repository is shallowly embedded here:

* src/tax_commander/calculator.py  (TaxCalculator: determine_period,
  get_expected_amount, validate_payment)
* src/tax_commander/db_manager.py  (DBManager: add_transaction,
  update_parcel_status, close_month, process_nsf_reversal,
  update_parcel_info, add_interim_parcel)
* src/tax_commander/reporter.py    (TaxReporter.generate_settlement_report)
* src/tax_commander/main.py        (the pay / exonerate / import-duplicate /
  add-interim / nsf / close-month command dispatch)

Monetary quantities in the source are Python floats carrying two-decimal
dollar amounts (the data model fixes 2-digit precision).  They are modelled
here as integers counting hundredths of a dollar, so 441.00 is 44100 and the
settlement tolerance 0.02 is 2.  Under that convention Python's
round(x - y, 2) == 0 test on two-decimal values is equality of the integer
values, the threshold balance_remaining <= 0.009 is 10 * balance <= 9, and
round(v / 3, 2) and round(v * 1.10, 2) are the round-half-to-even integer
divisions rheDiv v 3 and rheDiv (11 * v) 10.

Dates are modelled structurally as year/month/day triples; Python date
comparison on valid dates coincides with comparison of the numeric key
y * 10000 + m * 100 + d, and the SQL string comparisons on ISO formatted
date strings coincide with the same key.  The SQLite schema file
(schema.sql) is not part of the sources; the column defaults taken from it
(status UNPAID and is_closed 0 for freshly inserted rows) are modelled from
the spec where noted.
-/

namespace TaxCommander

/-- Round half to even of the fraction n / d (for d > 0), as Python's round
performs on exact halves; models round(·, 2) where it acts on a value that
is not already an exact hundredth (face / 3 and installment * 1.10). -/
def rheDiv (n d : ℤ) : ℤ :=
  let f := Int.fdiv n d
  let r := n - f * d
  if 2 * r < d then f
  else if d < 2 * r then f + 1
  else if f % 2 = 0 then f else f + 1

/-- Sum of an integer-valued function over a list; models the SQL SUM
aggregates and pandas column sums of the reporter. -/
def sumz {α : Type} (l : List α) (f : α → ℤ) : ℤ := (l.map f).sum

/-! ## Dates

Python datetime.date values, as consumed by determine_period and stored in
the date_received and postmark_date columns.  relativedelta(months=k) adds
k calendar months, clamping the day to the length of the target month, and
subtracting timedelta(days=1) steps back one calendar day. -/

/-- A calendar date, the model of a parsed "YYYY-MM-DD" string. -/
structure Date where
  year : ℕ
  month : ℕ
  day : ℕ
  deriving DecidableEq, Repr

/-- Gregorian leap-year rule, as used by Python's calendar arithmetic. -/
def isLeap (y : ℕ) : Bool := (y % 4 = 0 && y % 100 ≠ 0) || y % 400 = 0

/-- Number of days in a month of a given year. -/
def daysInMonth (y m : ℕ) : ℕ :=
  if m = 2 then (if isLeap y then 29 else 28)
  else if m = 4 ∨ m = 6 ∨ m = 9 ∨ m = 11 then 30
  else 31

/-- dateutil relativedelta(months := k) applied to a date: add k calendar
months, clamping the day to the target month's length. -/
def addMonths (dt : Date) (k : ℕ) : Date :=
  let total := dt.month - 1 + k
  let y := dt.year + total / 12
  let m := total % 12 + 1
  { year := y, month := m, day := min dt.day (daysInMonth y m) }

/-- timedelta(days := 1) subtracted from a date. -/
def predDay (dt : Date) : Date :=
  if dt.day > 1 then { dt with day := dt.day - 1 }
  else if dt.month > 1 then
    { year := dt.year, month := dt.month - 1, day := daysInMonth dt.year (dt.month - 1) }
  else
    { year := dt.year - 1, month := 12, day := 31 }

/-- Order-preserving numeric key for dates; comparing keys agrees with
Python date comparison and with SQL comparison of ISO date strings for all
well-formed dates. -/
def dateKey (dt : Date) : ℕ := dt.year * 10000 + dt.month * 100 + dt.day

/-- Python date ordering (lexicographic on year, month, day). -/
def dateLE (a b : Date) : Prop := dateKey a ≤ dateKey b

instance (a b : Date) : Decidable (dateLE a b) := by unfold dateLE; infer_instance

/-- A well-formed calendar date. -/
def ValidDate (dt : Date) : Prop :=
  1 ≤ dt.month ∧ dt.month ≤ 12 ∧ 1 ≤ dt.day ∧ dt.day ≤ daysInMonth dt.year dt.month

instance (dt : Date) : Decidable (ValidDate dt) := by unfold ValidDate; infer_instance

/-! ## TaxCalculator (src/tax_commander/calculator.py) -/

/-- The statutory payment periods returned by determine_period. -/
inductive Period where
  | DISCOUNT
  | FACE
  | PENALTY
  deriving DecidableEq, Repr

/-- String stored in the payment_period column for a period. -/
def periodStr : Period → String
  | .DISCOUNT => "DISCOUNT"
  | .FACE => "FACE"
  | .PENALTY => "PENALTY"

/-- TaxCalculator.determine_period: DISCOUNT until issue + 2 months - 1 day,
FACE until issue + 4 months - 1 day, PENALTY afterwards. -/
def determine_period (postmark issue_date : Date) : Period :=
  let discount_end := predDay (addMonths issue_date 2)
  let face_end := predDay (addMonths issue_date 4)
  if dateLE postmark discount_end then .DISCOUNT
  else if dateLE postmark face_end then .FACE
  else .PENALTY

/-- A row of the tax_duplicate table, as read by the calculator and mutated
by the ledger operations.  Monetary fields are hundredths of a dollar. -/
structure ParcelRow where
  parcel_id : String
  owner_name : String
  property_address : String
  mailing_address : String
  bill_number : String
  assessment_value : ℤ
  face_tax_amount : ℤ
  discount_amount : ℤ
  penalty_amount : ℤ
  tax_type : String
  bill_issue_date : Date
  is_interim : Bool
  is_installment_plan : Bool
  status : String
  deriving DecidableEq, Repr

/-- TaxCalculator.get_expected_amount: the exact amount due for a period. -/
def get_expected_amount (period : Period) (rec : ParcelRow) : ℤ :=
  match period with
  | .DISCOUNT => rec.discount_amount
  | .FACE => rec.face_tax_amount
  | .PENALTY => rec.penalty_amount

/-- Python str of a float holding an exact two-decimal value, taking the
value in hundredths ("441.0" for 44100, "0.01" for 1, "49.5" for 4950). -/
def fmtCents (c : ℤ) : String :=
  let n := c.natAbs
  let sign := if c < 0 then "-" else ""
  let ip := n / 100
  let r := n % 100
  sign ++
    (if r = 0 then toString ip ++ ".0"
     else if r % 10 = 0 then toString ip ++ "." ++ toString (r / 10)
     else if r < 10 then toString ip ++ ".0" ++ toString r
     else toString ip ++ "." ++ toString r)

/-- Result triple (is_valid, message, status_code) of validate_payment. -/
structure ValidationResult where
  ok : Bool
  message : String
  code : String
  deriving DecidableEq, Repr

/-- Python str of an optional installment number (None prints as "None"). -/
def fmtOptNat : Option ℕ → String
  | none => "None"
  | some n => toString n

/-- Python "installment_num or 1": None and 0 are falsy and yield 1. -/
def pyOrOne : Option ℕ → ℕ
  | none => 1
  | some n => if n = 0 then 1 else n

/-- TaxCalculator.validate_payment: strict validation of a tendered amount
against the period amount and, for installment plans, against the
installment amounts.  On two-decimal values the source's test
round(amount_tendered - expected, 2) == 0 is equality of the hundredth
counts.  over_under models the fall-through to steps 3 and 4 of the Python
function. -/
def validate_payment (rec : ParcelRow) (amount_tendered : ℤ)
    (postmark : Date) (installment_num : Option ℕ) : ValidationResult :=
  let period := determine_period postmark rec.bill_issue_date
  let expected_full_amount := get_expected_amount period rec
  let over_under : ValidationResult :=
    if amount_tendered > expected_full_amount then
      ⟨false, "OVERPAYMENT of $" ++ fmtCents (amount_tendered - expected_full_amount) ++
        ". Do not deposit. Issue Refund/Return Check.", "REJECTED_OVER"⟩
    else
      ⟨false, "UNDERPAYMENT of $" ++ fmtCents (expected_full_amount - amount_tendered) ++
        ". Exact amount required or valid installment.", "REJECTED_UNDER"⟩
  if amount_tendered - expected_full_amount = 0 then
    ⟨true, "Exact Match (Full Payment)", "ACCEPTED_FULL"⟩
  else if rec.is_installment_plan then
    if period = .PENALTY ∧ (installment_num = none ∨ installment_num = some 1) then
      ⟨false, "Installment plan invalid during Penalty Period. Full penalty amount required.",
        "REJECTED_INSTALLMENT_LATE"⟩
    else
      let expected_installment_amount := rheDiv rec.face_tax_amount 3
      if amount_tendered - expected_installment_amount = 0 then
        ⟨true, "Exact Match (Installment " ++ toString (pyOrOne installment_num) ++ ")",
          "ACCEPTED_INSTALLMENT"⟩
      else
        let expected_installment_penalty := rheDiv (11 * expected_installment_amount) 10
        if amount_tendered - expected_installment_penalty = 0 then
          ⟨true, "Exact Match (Penalty Installment " ++ fmtOptNat installment_num ++ ")",
            "ACCEPTED_INSTALLMENT_PENALTY"⟩
        else over_under
  else over_under

/-! ## DBManager (src/tax_commander/db_manager.py)

The SQLite tables are modelled as lists in insertion order: tax_duplicate,
transactions (rowid = transaction_id, assigned from the monotonic counter
next_tx_id), change_log (the audit trail written by log_db_change) and
system_log (written by log_action).  Each operation models one method of
DBManager running from an open connection to commit, with exceptions
modelled as Except.error after rollback. -/

/-- A row of the transactions table, per the INSERT in add_transaction. -/
structure Transaction where
  transaction_id : ℕ
  date_received : Date
  postmark_date : Option Date
  parcel_id : String
  transaction_type : String
  payment_method : Option String
  check_number : Option String
  amount_paid : ℤ
  balance_remaining : ℤ
  payment_period : Option String
  installment_number : Option ℕ
  deposit_batch_id : Option String
  is_closed : Bool
  image_path : Option String
  notes : Option String
  deriving DecidableEq, Repr

/-- A row of the change_log audit table written by log_db_change.  The wall
clock timestamp column is not modelled. -/
structure ChangeLogEntry where
  table_name : String
  record_id : String
  action_type : String
  field_name : Option String
  old_value : String
  new_value : String
  deriving DecidableEq, Repr

/-- The persisted database state. -/
structure DBState where
  tax_duplicate : List ParcelRow
  transactions : List Transaction
  change_log : List ChangeLogEntry
  system_log : List (String × String)
  next_tx_id : ℕ
  deriving DecidableEq, Repr

/-- A fresh database right after schema initialization. -/
def initState : DBState :=
  { tax_duplicate := [], transactions := [], change_log := [], system_log := [], next_tx_id := 1 }

/-- The dict passed to add_transaction.  transaction_type is an Option
because the source reads it twice with different defaults: the INSERT site
uses data.get('transaction_type', 'PAYMENT') while the closure guard and
the status branch use data.get('transaction_type') with no default, so a
dict missing the key (the pay and ingest paths build such dicts) stores a
PAYMENT row but skips the status recomputation.  balance_remaining
defaults to 0.0 and is_closed to 0 as in the source. -/
structure TxData where
  date_received : Date
  postmark_date : Option Date := none
  parcel_id : String
  transaction_type : Option String := none
  payment_method : Option String := none
  check_number : Option String := none
  amount_paid : ℤ
  balance_remaining : ℤ := 0
  payment_period : Option String := none
  installment_number : Option ℕ := none
  deposit_batch_id : Option String := none
  is_closed : Bool := false
  image_path : Option String := none
  notes : Option String := none
  deriving DecidableEq, Repr

/-- Row lookup by parcel id in a parcel list. -/
def findRow (l : List ParcelRow) (parcel_id : String) : Option ParcelRow :=
  l.find? (fun p => p.parcel_id == parcel_id)

/-- SELECT * FROM tax_duplicate WHERE parcel_id = ? (first match; the
schema keys the table by parcel id). -/
def find_parcel (s : DBState) (parcel_id : String) : Option ParcelRow :=
  findRow s.tax_duplicate parcel_id

/-- SELECT * FROM transactions WHERE transaction_id = ?. -/
def find_transaction (s : DBState) (tx_id : ℕ) : Option Transaction :=
  s.transactions.find? (fun t => t.transaction_id == tx_id)

/-- The row update of UPDATE tax_duplicate SET status = ? WHERE parcel_id = ?. -/
def updStatusFn (parcel_id status : String) (p : ParcelRow) : ParcelRow :=
  if p.parcel_id == parcel_id then { p with status := status } else p

/-- DBManager.update_parcel_status: read the old status (UNKNOWN when the
parcel does not exist), update every row with the parcel id, and audit the
status change when the value actually changed. -/
def update_parcel_status (s : DBState) (parcel_id status : String) : DBState :=
  let old_status := match find_parcel s parcel_id with
    | some row => row.status
    | none => "UNKNOWN"
  let parcels := s.tax_duplicate.map (updStatusFn parcel_id status)
  let log :=
    if old_status ≠ status then
      s.change_log ++ [⟨"tax_duplicate", parcel_id, "UPDATE", some "status", old_status, status⟩]
    else s.change_log
  { s with tax_duplicate := parcels, change_log := log }

/-- The transactions row inserted by add_transaction for the given data;
the stored type falls back to PAYMENT when the dict has no
transaction_type key (data.get with the PAYMENT default). -/
def mkTransaction (data : TxData) (tx_id : ℕ) : Transaction :=
  { transaction_id := tx_id
    date_received := data.date_received
    postmark_date := data.postmark_date
    parcel_id := data.parcel_id
    transaction_type := data.transaction_type.getD "PAYMENT"
    payment_method := data.payment_method
    check_number := data.check_number
    amount_paid := data.amount_paid
    balance_remaining := data.balance_remaining
    payment_period := data.payment_period
    installment_number := data.installment_number
    deposit_batch_id := data.deposit_batch_id
    is_closed := data.is_closed
    image_path := data.image_path
    notes := data.notes }

/-- The month-closure test of add_transaction: COUNT(*) > 0 over transactions
whose date_received has the given STRFTIME year and month and is_closed = 1. -/
def monthClosedHit (s : DBState) (year month : ℕ) : Bool :=
  s.transactions.any
    (fun t => t.date_received.year == year && t.date_received.month == month && t.is_closed)

/-- DBManager.add_transaction: unless the dict carries the explicit
REJECTED_PAYMENT type, refuse to write into an already-closed month;
insert the transactions row (stored type defaulting to PAYMENT); derive
the parcel status only when the dict carries an explicit PAYMENT / RETURN
/ EXONERATION type — the status branch reads data.get('transaction_type')
with no default, so a dict missing the key skips it, as does
REJECTED_PAYMENT; log the action and audit the insert.  On two-decimal
values the source's threshold balance_remaining <= 0.009 is
10 * balance_remaining <= 9 in hundredths. -/
def add_transaction (s : DBState) (data : TxData) : Except String (DBState × ℕ) :=
  let month := data.date_received.month
  let year := data.date_received.year
  if data.transaction_type ≠ some "REJECTED_PAYMENT" ∧ monthClosedHit s year month then
    .error ("Month " ++ toString month ++ "/" ++ toString year ++
      " is already closed. Cannot add new transactions.")
  else
    let new_tx_id := s.next_tx_id
    let s₁ := { s with
      transactions := s.transactions ++ [mkTransaction data new_tx_id]
      next_tx_id := new_tx_id + 1 }
    let s₂ :=
      if data.transaction_type = some "PAYMENT" then
        let new_status := if 10 * data.balance_remaining ≤ 9 then "PAID" else "PARTIAL"
        update_parcel_status s₁ data.parcel_id new_status
      else if data.transaction_type = some "RETURN" then
        update_parcel_status s₁ data.parcel_id "RETURNED"
      else if data.transaction_type = some "EXONERATION" then
        update_parcel_status s₁ data.parcel_id "EXONERATED"
      else s₁
    let s₃ := { s₂ with
      system_log := s₂.system_log ++
        [("TRANSACTION", "Added transaction for " ++ data.parcel_id ++ ": " ++
          fmtCents data.amount_paid)]
      change_log := s₂.change_log ++
        [⟨"transactions", toString new_tx_id, "INSERT", some "amount_paid", "0.00",
          fmtCents data.amount_paid⟩] }
    .ok (s₃, new_tx_id)

/-- Membership of a date_received value in the closed range
[year-month-01, first of next month), by ISO string comparison. -/
def inCloseRange (month year : ℕ) (dt : Date) : Bool :=
  let start_date : Date := ⟨year, month, 1⟩
  let end_date : Date := if month = 12 then ⟨year + 1, 1, 1⟩ else ⟨year, month + 1, 1⟩
  dateKey start_date ≤ dateKey dt && dateKey dt < dateKey end_date

/-- The row update of UPDATE transactions SET is_closed = 1 WHERE
date_received in range AND is_closed = 0. -/
def closeFn (month year : ℕ) (t : Transaction) : Transaction :=
  if inCloseRange month year t.date_received && !t.is_closed then
    { t with is_closed := true } else t

/-- DBManager.close_month: set is_closed = 1 on every not-yet-closed
transaction of the calendar month and report how many rows were updated. -/
def close_month (s : DBState) (month year : ℕ) : DBState × ℕ :=
  let count := (s.transactions.filter
    (fun t => inCloseRange month year t.date_received && !t.is_closed)).length
  let txs := s.transactions.map (closeFn month year)
  ({ s with
      transactions := txs
      system_log := s.system_log ++
        [("CLOSE_MONTH", "Closed " ++ toString count ++ " transactions for " ++
          toString month ++ "/" ++ toString year)] },
    count)

/-- The compensating row built by process_nsf_reversal from the original
transaction row. -/
def nsfReversalRow (s : DBState) (original_transaction_id : ℕ) (today : Date)
    (row : Transaction) : Transaction :=
  { transaction_id := s.next_tx_id
    date_received := today
    postmark_date := some today
    parcel_id := row.parcel_id
    transaction_type := "NSF_REVERSAL"
    payment_method := some "ADJUSTMENT"
    check_number := row.check_number
    amount_paid := -row.amount_paid
    balance_remaining := row.amount_paid
    payment_period := row.payment_period
    installment_number := row.installment_number
    deposit_batch_id := none
    is_closed := false
    image_path := none
    notes := some ("NSF Reversal for Trans ID " ++ toString original_transaction_id) }

/-- The state written by a successful process_nsf_reversal: the reversal
row appended and the parcel reset to UNPAID. -/
def nsfApplied (s : DBState) (original_transaction_id : ℕ) (today : Date)
    (row : Transaction) : DBState :=
  let s₁ := { s with
    transactions := s.transactions ++ [nsfReversalRow s original_transaction_id today row]
    next_tx_id := s.next_tx_id + 1 }
  let s₂ := update_parcel_status s₁ row.parcel_id "UNPAID"
  { s₂ with
    system_log := s₂.system_log ++
      [("NSF_REVERSAL", "Reversed transaction " ++ toString original_transaction_id)] }

/-- DBManager.process_nsf_reversal: look up the original transaction, insert
a compensating NSF_REVERSAL row directly (not through add_transaction, so no
change_log INSERT entry is written), and reset the parcel status to UNPAID.
The is_closed value of the inserted row is modelled from the spec: the
column is absent from this INSERT and takes the schema default, and per the
spec a transaction is closed only by the month-close transition.  The
reversal is dated with the wall clock, passed here as today. -/
def process_nsf_reversal (s : DBState) (original_transaction_id : ℕ) (today : Date) :
    Except String DBState :=
  match find_transaction s original_transaction_id with
  | none => .error "Transaction not found"
  | some row => .ok (nsfApplied s original_transaction_id today row)

/-- Python truthiness of an optional string argument (None and "" are falsy). -/
def pyTruthy : Option String → Bool
  | none => false
  | some st => st ≠ ""

/-- DBManager.update_parcel_info: update owner name and/or mailing address
of an existing parcel, auditing each updated field; both old values are
read from the row fetched before the updates. -/
def update_parcel_info (s : DBState) (parcel_id : String)
    (new_name new_address : Option String) : Except String DBState :=
  match find_parcel s parcel_id with
  | none => .error ("Parcel " ++ parcel_id ++ " not found.")
  | some row =>
      let s₁ :=
        if pyTruthy new_name then
          let nm := new_name.getD ""
          { s with
            tax_duplicate := s.tax_duplicate.map
              (fun p => if p.parcel_id == parcel_id then { p with owner_name := nm } else p)
            change_log := s.change_log ++
              [⟨"tax_duplicate", parcel_id, "UPDATE", some "owner_name", row.owner_name, nm⟩] }
        else s
      let s₂ :=
        if pyTruthy new_address then
          let ad := new_address.getD ""
          { s₁ with
            tax_duplicate := s₁.tax_duplicate.map
              (fun p => if p.parcel_id == parcel_id then { p with mailing_address := ad } else p)
            change_log := s₁.change_log ++
              [⟨"tax_duplicate", parcel_id, "UPDATE", some "mailing_address",
                row.mailing_address, ad⟩] }
        else s₁
      .ok { s₂ with
        system_log := s₂.system_log ++ [("UPDATE_PARCEL", "Updated info for " ++ parcel_id)] }

/-- The dict passed to add_interim_parcel (mailing_address and tax_type have
data.get defaults). -/
structure InterimParcelData where
  parcel_id : String
  owner_name : String
  property_address : String
  mailing_address : Option String := none
  bill_number : String
  assessment_value : ℤ
  face_tax_amount : ℤ
  discount_amount : ℤ
  penalty_amount : ℤ
  tax_type : Option String := none
  bill_issue_date : Date
  deriving DecidableEq, Repr

/-- DBManager.add_interim_parcel: refuse an existing parcel id, then insert
a row with is_interim = 1 and status UNPAID.  is_installment_plan is absent
from the INSERT column list; its schema default 0 is modelled from the spec
(installment eligibility is an import-time flag). -/
def add_interim_parcel (s : DBState) (pd : InterimParcelData) : Except String DBState :=
  match find_parcel s pd.parcel_id with
  | some _ => .error ("Parcel " ++ pd.parcel_id ++ " already exists.")
  | none =>
      let row : ParcelRow :=
        { parcel_id := pd.parcel_id
          owner_name := pd.owner_name
          property_address := pd.property_address
          mailing_address := pd.mailing_address.getD pd.property_address
          bill_number := pd.bill_number
          assessment_value := pd.assessment_value
          face_tax_amount := pd.face_tax_amount
          discount_amount := pd.discount_amount
          penalty_amount := pd.penalty_amount
          tax_type := pd.tax_type.getD "Real Estate"
          bill_issue_date := pd.bill_issue_date
          is_interim := true
          is_installment_plan := false
          status := "UNPAID" }
      .ok { s with
        tax_duplicate := s.tax_duplicate ++ [row]
        system_log := s.system_log ++
          [("ADD_INTERIM", "Added Interim Parcel " ++ pd.parcel_id)] }

/-- A CSV row consumed by the import-duplicate command of main.py. -/
structure ImportRow where
  parcel_id : String
  owner_name : String
  property_address : String
  mailing_address : Option String := none
  bill_number : String
  assessment_value : ℤ
  face_tax_amount : ℤ
  discount_amount : ℤ
  penalty_amount : ℤ
  tax_type : String
  bill_issue_date : Date
  is_installment_plan : Bool
  deriving DecidableEq, Repr

/-- The import-duplicate command of main.py for one CSV row: INSERT OR
REPLACE keyed by parcel id (a conflicting row is deleted and the new row
appended).  The status and is_interim columns are absent from the column
list; their schema defaults UNPAID and 0 are modelled from the spec
(initial state UNPAID at parcel creation; interim parcels only via the
interim add). -/
def importedRow (row : ImportRow) : ParcelRow :=
  -- the row inserted for one CSV record; status/is_interim keep schema defaults
  { parcel_id := row.parcel_id
    owner_name := row.owner_name
    property_address := row.property_address
    mailing_address := row.mailing_address.getD row.property_address
    bill_number := row.bill_number
    assessment_value := row.assessment_value
    face_tax_amount := row.face_tax_amount
    discount_amount := row.discount_amount
    penalty_amount := row.penalty_amount
    tax_type := row.tax_type
    bill_issue_date := row.bill_issue_date
    is_interim := false
    is_installment_plan := row.is_installment_plan
    status := "UNPAID" }

def import_duplicate_row (s : DBState) (row : ImportRow) : DBState :=
  { s with tax_duplicate :=
      (s.tax_duplicate.filter (fun q => q.parcel_id ≠ row.parcel_id)) ++ [importedRow row] }

/-! ## SettlementReconciler (TaxReporter.generate_settlement_report)

Each definition models one aggregate query of the report.  The two JOIN
sums look the joined parcel up by id; find_parcel models the join under
the parcel-id uniqueness that keys the tax_duplicate table. -/

/-- SUM(face_tax_amount) over non-interim parcels (Original Duplicate). -/
def dup_face (s : DBState) : ℤ :=
  sumz (s.tax_duplicate.filter (fun p => !p.is_interim)) (fun p => p.face_tax_amount)

/-- SUM(face_tax_amount) over interim parcels (Interim Adds). -/
def int_face (s : DBState) : ℤ :=
  sumz (s.tax_duplicate.filter (fun p => p.is_interim)) (fun p => p.face_tax_amount)

/-- One row's contribution to Discounts Allowed: face - amount_paid for a
PAYMENT in the DISCOUNT period, joined to its parcel. -/
def discTerm (s : DBState) (t : Transaction) : ℤ :=
  if t.transaction_type == "PAYMENT" && t.payment_period == some "DISCOUNT" then
    match find_parcel s t.parcel_id with
    | some d => d.face_tax_amount - t.amount_paid
    | none => 0
  else 0

/-- SUM(face - amount_paid) over PAYMENT transactions in the DISCOUNT
period, joined to their parcel (Discounts Allowed). -/
def discounts_allowed (s : DBState) : ℤ :=
  sumz s.transactions (discTerm s)

/-- One row's contribution to Penalties Collected: amount_paid - face for a
PAYMENT in the PENALTY period, joined to its parcel. -/
def penTerm (s : DBState) (t : Transaction) : ℤ :=
  if t.transaction_type == "PAYMENT" && t.payment_period == some "PENALTY" then
    match find_parcel s t.parcel_id with
    | some d => t.amount_paid - d.face_tax_amount
    | none => 0
  else 0

/-- SUM(amount_paid - face) over PAYMENT transactions in the PENALTY
period, joined to their parcel (Penalties Collected). -/
def penalties_collected (s : DBState) : ℤ :=
  sumz s.transactions (penTerm s)

/-- SUM(face_tax_amount) over parcels with status UNPAID or RETURNED. -/
def ret_face (s : DBState) : ℤ :=
  sumz (s.tax_duplicate.filter (fun p => p.status == "UNPAID" || p.status == "RETURNED"))
    (fun p => p.face_tax_amount)

/-- SUM(penalty_amount) over parcels with status UNPAID or RETURNED. -/
def ret_pen (s : DBState) : ℤ :=
  sumz (s.tax_duplicate.filter (fun p => p.status == "UNPAID" || p.status == "RETURNED"))
    (fun p => p.penalty_amount)

/-- TOTAL CHARGES: face + interims + penalties collected + penalties due. -/
def total_accountable (s : DBState) : ℤ :=
  dup_face s + int_face s + penalties_collected s + ret_pen s

/-- One row's contribution to Cash Collected. -/
def cashTerm (t : Transaction) : ℤ :=
  if t.transaction_type == "PAYMENT" then t.amount_paid else 0

/-- Cash Collected: the amount_paid sum over rows of type PAYMENT. -/
def total_cash_collected (s : DBState) : ℤ :=
  sumz s.transactions cashTerm

/-- One row's contribution to Exonerations. -/
def exonTerm (t : Transaction) : ℤ :=
  if t.transaction_type == "EXONERATION" then t.amount_paid else 0

/-- Exonerations: the amount_paid sum over rows of type EXONERATION. -/
def exonerations_total (s : DBState) : ℤ :=
  sumz s.transactions exonTerm

/-- TOTAL CREDITS: cash + discounts + exonerations + returns (face and
penalty). -/
def total_credits (s : DBState) : ℤ :=
  total_cash_collected s + discounts_allowed s + exonerations_total s + ret_face s + ret_pen s

/-- BALANCE (Should be 0.00): charges minus credits. -/
def settlement_balance (s : DBState) : ℤ :=
  total_accountable s - total_credits s

/-- The books are balanced when the balance is below 0.02 dollars in
absolute value (2 hundredths). -/
def books_balanced (s : DBState) : Prop := |settlement_balance s| < 2

instance (s : DBState) : Decidable (books_balanced s) := by
  unfold books_balanced; infer_instance

/-! ## Command dispatch (src/tax_commander/main.py)

The ledger-mutating commands, each applied to the persisted state.  Where
an operation raises, main.py reports the error and leaves the rolled-back
state unchanged, so applyOp is total and returns the resulting state. -/

/-- One ledger-mutating command. -/
inductive LedgerOp where
  | importDuplicate (row : ImportRow)
  | addInterim (pd : InterimParcelData)
  | pay (parcel : String) (amount : ℤ) (date : Date) (check : String)
      (installment_num : Option ℕ)
  | appendPayment (parcel : String) (amount : ℤ) (date : Date) (check : String)
  | exonerate (parcel : String) (amount : ℤ) (date : Date) (reason : String)
  | appendReturn (parcel : String) (amount : ℤ) (date : Date)
  | nsf (tx_id : ℕ) (today : Date)
  | closeMonth (month year : ℕ)
  | updateParcel (parcel : String) (new_name new_address : Option String)
  deriving Repr

/-- The transaction dict built by the pay command for a rejected payment. -/
def rejectedTxData (parcel : ParcelRow) (amount : ℤ) (date : Date) (check : String)
    (vr : ValidationResult) : TxData :=
  { date_received := date
    postmark_date := some date
    parcel_id := parcel.parcel_id
    amount_paid := amount
    check_number := some check
    payment_method := some (if check ≠ "CASH" then "CHECK" else "CASH")
    transaction_type := some "REJECTED_PAYMENT"
    notes := some ("Rejected: " ++ vr.message ++ " (" ++ vr.code ++ ")")
    balance_remaining := parcel.face_tax_amount }

/-- The transaction dict built by the pay command for an accepted payment.
The dict has no transaction_type key (the insert stores the PAYMENT
default, but add_transaction's status branch is skipped) and
balance_remaining keeps its dict default 0.0. -/
def acceptedTxData (parcel : ParcelRow) (amount : ℤ) (date : Date) (check : String)
    (installment_num : Option ℕ) : TxData :=
  { date_received := date
    postmark_date := some date
    parcel_id := parcel.parcel_id
    amount_paid := amount
    check_number := some check
    payment_method := some (if check ≠ "CASH" then "CHECK" else "CASH")
    payment_period := some (periodStr (determine_period date parcel.bill_issue_date))
    installment_number := installment_num }

/-- The transaction dict built by the exonerate command. -/
def exonerationTxData (parcel : String) (amount : ℤ) (date : Date) (reason : String) : TxData :=
  { date_received := date
    postmark_date := some date
    parcel_id := parcel
    transaction_type := some "EXONERATION"
    payment_method := some "NONE"
    amount_paid := amount
    notes := some reason }

/-- Modelled from the spec: the return operation hands an unpaid parcel to
the collection authority by appending a transaction of type RETURN through
the same append path (section 4.3; no CLI command constructs it in the
source, only add_transaction consumes the type). -/
def returnTxData (parcel : String) (amount : ℤ) (date : Date) : TxData :=
  { date_received := date
    postmark_date := some date
    parcel_id := parcel
    transaction_type := some "RETURN"
    amount_paid := amount }

/-- Modelled from the spec: section 4.4's PAYMENT append carries the
explicit row type, under which add_transaction runs the status
recomputation.  No CLI command builds a payment dict with the
transaction_type key (the pay command's dict omits it); only
add_transaction consumes the explicit type. -/
def paymentTxData (parcel : ParcelRow) (amount : ℤ) (date : Date) (check : String) : TxData :=
  { date_received := date
    postmark_date := some date
    parcel_id := parcel.parcel_id
    amount_paid := amount
    check_number := some check
    payment_method := some (if check ≠ "CASH" then "CHECK" else "CASH")
    transaction_type := some "PAYMENT"
    payment_period := some (periodStr (determine_period date parcel.bill_issue_date)) }

/-- The main.py dispatch for one ledger-mutating command.  The
appendPayment and appendReturn arms are the spec-level appends (see
paymentTxData and returnTxData): no main.py command constructs their
dicts, but both run through the same add_transaction path. -/
def applyOp (s : DBState) (op : LedgerOp) : DBState :=
  match op with
  | .importDuplicate row => import_duplicate_row s row
  | .addInterim pd =>
      match add_interim_parcel s pd with
      | .ok s' => s'
      | .error _ => s
  | .pay parcel amount date check installment_num =>
      match find_parcel s parcel with
      | none => s
      | some row =>
          let vr := validate_payment row amount date installment_num
          if vr.ok then
            match add_transaction s (acceptedTxData row amount date check installment_num) with
            | .ok (s', _) => s'
            | .error _ => s
          else
            match add_transaction s (rejectedTxData row amount date check vr) with
            | .ok (s', _) => s'
            | .error _ => s
  | .appendPayment parcel amount date check =>
      match find_parcel s parcel with
      | none => s
      | some row =>
          match add_transaction s (paymentTxData row amount date check) with
          | .ok (s', _) => s'
          | .error _ => s
  | .exonerate parcel amount date reason =>
      match add_transaction s (exonerationTxData parcel amount date reason) with
      | .ok (s', _) => s'
      | .error _ => s
  | .appendReturn parcel amount date =>
      match add_transaction s (returnTxData parcel amount date) with
      | .ok (s', _) => s'
      | .error _ => s
  | .nsf tx_id today =>
      match process_nsf_reversal s tx_id today with
      | .ok s' => s'
      | .error _ => s
  | .closeMonth month year => (close_month s month year).1
  | .updateParcel parcel new_name new_address =>
      match update_parcel_info s parcel new_name new_address with
      | .ok s' => s'
      | .error _ => s

/-- A sequence of commands applied in order. -/
def applyOps (s : DBState) (ops : List LedgerOp) : DBState :=
  ops.foldl applyOp s

/-! ## Valid operation sequences

The operations the settlement invariant claim ranges over.  A CLI pay
command is valid only when its parcel exists and the validator rejects it
(the command then records a REJECTED_PAYMENT row): an accepted pay builds
a dict with no transaction_type key, so the parcel status is never
recomputed and the balance breaks — the counterexample shows it.  A
spec-level PAYMENT append (explicit type) is valid when it pays the exact
full period amount of an UNPAID parcel; an exoneration forgives the full
face amount of an UNPAID parcel; a return hands over an UNPAID parcel;
imports add fresh parcel ids.  NSF reversals are not valid in this sense
either. -/

/-- Validity of one command against the current state. -/
def validOp (s : DBState) (op : LedgerOp) : Bool :=
  match op with
  | .importDuplicate row => (find_parcel s row.parcel_id).isNone
  | .addInterim _ => true
  | .pay parcel amount date _ installment_num =>
      match find_parcel s parcel with
      | none => false
      | some row => !(validate_payment row amount date installment_num).ok
  | .appendPayment parcel amount date _ =>
      match find_parcel s parcel with
      | none => false
      | some row =>
          row.status == "UNPAID" &&
          amount == get_expected_amount (determine_period date row.bill_issue_date) row
  | .exonerate parcel amount _ _ =>
      match find_parcel s parcel with
      | none => false
      | some row => row.status == "UNPAID" && amount == row.face_tax_amount
  | .appendReturn parcel _ _ =>
      match find_parcel s parcel with
      | none => false
      | some row => row.status == "UNPAID"
  | .nsf _ _ => false
  | .closeMonth _ _ => true
  | .updateParcel _ _ _ => false

/-- States reachable from a fresh database through valid commands. -/
inductive ValidReachable : DBState → Prop where
  | init : ValidReachable initState
  | step (s : DBState) (op : LedgerOp) : ValidReachable s → validOp s op = true →
      ValidReachable (applyOp s op)

/-- The per-parcel net contribution of the parcel table to the settlement
balance: face charged minus face credited back for UNPAID or RETURNED
parcels (the penalty charge and credit cancel). -/
def parcelContrib (p : ParcelRow) : ℤ :=
  if p.status == "UNPAID" || p.status == "RETURNED" then 0 else p.face_tax_amount

/-- Structural invariant of states reached by valid command sequences:
parcel ids are unique and every transaction row references an existing
parcel. -/
def LedgerInv (s : DBState) : Prop :=
  (s.tax_duplicate.map (fun p => p.parcel_id)).Nodup ∧
  (∀ t ∈ s.transactions, ∃ p ∈ s.tax_duplicate, p.parcel_id = t.parcel_id)

/-! ## Concrete scenario

The parcel of the spec's scenarios (face 450.00, discount 441.00, penalty
495.00, issued 2025-03-01) and the state reached by importing it, paying
the exact discount amount on 2025-04-15 and reversing that payment as NSF.
Used by several counterexamples and witnesses below. -/

/-- The scenario parcel as a CSV import row. -/
def scenarioImport : ImportRow :=
  { parcel_id := "P-001"
    owner_name := "Test Owner 1"
    property_address := "1 Main St"
    bill_number := "B001"
    assessment_value := 10000000
    face_tax_amount := 45000
    discount_amount := 44100
    penalty_amount := 49500
    tax_type := "Real Estate"
    bill_issue_date := ⟨2025, 3, 1⟩
    is_installment_plan := false }

/-- The scenario parcel as a tax_duplicate row (status UNPAID). -/
def scenarioParcel : ParcelRow :=
  { parcel_id := "P-001"
    owner_name := "Test Owner 1"
    property_address := "1 Main St"
    mailing_address := "1 Main St"
    bill_number := "B001"
    assessment_value := 10000000
    face_tax_amount := 45000
    discount_amount := 44100
    penalty_amount := 49500
    tax_type := "Real Estate"
    bill_issue_date := ⟨2025, 3, 1⟩
    is_interim := false
    is_installment_plan := false
    status := "UNPAID" }

/-- Import the scenario parcel, pay 441.00 on 2025-04-15 (accepted in the
DISCOUNT period as transaction 1), then reverse transaction 1 as NSF. -/
def nsfScenario : DBState :=
  applyOps initState
    [.importDuplicate scenarioImport,
     .pay "P-001" 44100 ⟨2025, 4, 15⟩ "101" none,
     .nsf 1 ⟨2025, 8, 1⟩]

/-- Strict ordering of dates, the complement of dateLE in date order. -/
def dateLT (a b : Date) : Prop := dateKey a < dateKey b

instance (a b : Date) : Decidable (dateLT a b) := by unfold dateLT; infer_instance

/-- A database holding just the scenario parcel, still unpaid. -/
def oneParcelState : DBState := { initState with tax_duplicate := [scenarioParcel] }

/-- Transaction data for an exact discount-period payment of the scenario
parcel, as the pay command builds it. -/
def discountPayData : TxData :=
  acceptedTxData scenarioParcel 44100 ⟨2025, 4, 15⟩ "101" none

/-- The state produced by appending discountPayData to oneParcelState. -/
def afterDiscountPay : DBState :=
  match add_transaction oneParcelState discountPayData with
  | .ok (s', _) => s'
  | .error _ => initState

/-- Transaction data for an explicitly PAYMENT-typed append referencing a
parcel id that is not in the parcel table. -/
def missingParcelPayData : TxData :=
  { date_received := ⟨2025, 4, 15⟩
    parcel_id := "P-404"
    transaction_type := some "PAYMENT"
    amount_paid := 44100 }

/-- The state after importing the scenario parcel and running the CLI pay
command with the exact discount amount (accepted; the dict carries no
transaction_type key). -/
def payScenario : DBState :=
  applyOps initState
    [.importDuplicate scenarioImport,
     .pay "P-001" 44100 ⟨2025, 4, 15⟩ "101" none]

/-- The discount payment of the scenario parcel as a spec-level append
dict carrying the explicit PAYMENT type. -/
def explicitPayData : TxData :=
  paymentTxData scenarioParcel 44100 ⟨2025, 4, 15⟩ "101"

/-- The state produced by appending explicitPayData to oneParcelState. -/
def afterExplicitPay : DBState :=
  match add_transaction oneParcelState explicitPayData with
  | .ok (s', _) => s'
  | .error _ => initState

/-- The state after appending a payment to a month that was closed while
empty (no transaction rows): the append still succeeds. -/
def afterEmptyClosePay : DBState :=
  match add_transaction (close_month initState 4 2025).1 discountPayData with
  | .ok (s', _) => s'
  | .error _ => initState

/-- The state after correcting both the owner name and mailing address of
the scenario parcel. -/
def afterInfoUpdate : DBState :=
  match update_parcel_info oneParcelState "P-001" (some "New Owner") (some "2 Oak St") with
  | .ok s' => s'
  | .error _ => initState

/-- The month (year, month) holds at least one closed transaction row; this
is exactly what fires the closure guard of add_transaction. -/
def hasClosedInMonth (s : DBState) (year month : ℕ) : Prop :=
  ∃ t ∈ s.transactions,
    t.date_received.year = year ∧ t.date_received.month = month ∧ t.is_closed = true

/-! ## List sum lemmas -/

theorem sumz_nil {α : Type} (f : α → ℤ) : sumz ([] : List α) f = 0 := rfl

theorem sumz_cons {α : Type} (a : α) (l : List α) (f : α → ℤ) :
    sumz (a :: l) f = f a + sumz l f := by
  unfold sumz; simp

theorem sumz_append {α : Type} (l₁ l₂ : List α) (f : α → ℤ) :
    sumz (l₁ ++ l₂) f = sumz l₁ f + sumz l₂ f := by
  unfold sumz; simp

theorem sumz_congr {α : Type} {l : List α} {f g : α → ℤ}
    (h : ∀ x ∈ l, f x = g x) : sumz l f = sumz l g := by
  unfold sumz
  induction l with
  | nil => rfl
  | cons a t ih =>
      simp only [List.map_cons, List.sum_cons]
      rw [h a (List.mem_cons_self a t), ih (fun x hx => h x (List.mem_cons_of_mem a hx))]

theorem sumz_map {α β : Type} (l : List α) (g : α → β) (f : β → ℤ) :
    sumz (l.map g) f = sumz l (fun x => f (g x)) := by
  unfold sumz; rw [List.map_map]; rfl

theorem sumz_filter {α : Type} (l : List α) (q : α → Bool) (f : α → ℤ) :
    sumz (l.filter q) f = sumz l (fun a => if q a then f a else 0) := by
  induction l with
  | nil => rfl
  | cons a t ih =>
      by_cases h : q a
      · rw [List.filter_cons_of_pos h, sumz_cons, sumz_cons, ih, if_pos h]
      · rw [List.filter_cons_of_neg h, sumz_cons, ih, if_neg h]
        simp

theorem sumz_add {α : Type} (l : List α) (f g : α → ℤ) :
    sumz l (fun a => f a + g a) = sumz l f + sumz l g := by
  induction l with
  | nil => rfl
  | cons a t ih =>
      rw [sumz_cons, sumz_cons, sumz_cons, ih]
      ring

/-- Summing an update applied to the unique list element with a given key:
only the found element changes its contribution. -/
theorem sumz_ite_unique {α : Type} (key : α → String) (x : String)
    (A B : α → ℤ) :
    ∀ (l : List α) (r : α), (l.map key).Nodup →
      l.find? (fun p => key p == x) = some r →
      sumz l (fun p => if key p == x then A p else B p) = sumz l B + A r - B r := by
  intro l
  induction l with
  | nil => intro r _ h; simp at h
  | cons a t ih =>
      intro r hnd hfind
      rw [List.map_cons, List.nodup_cons] at hnd
      by_cases ha : key a == x
      · simp only [List.find?_cons, ha, reduceIte] at hfind
        injection hfind with hr
        subst hr
        rw [sumz_cons, sumz_cons, if_pos ha]
        have hx : key a = x := by simpa using ha
        have ht : sumz t (fun p => if key p == x then A p else B p) = sumz t B := by
          apply sumz_congr
          intro p hp
          have : key p ≠ x := by
            intro hc
            exact hnd.1 (hx ▸ hc ▸ List.mem_map_of_mem key hp)
          simp [this]
        rw [ht]
        ring
      · simp only [List.find?_cons, ha, reduceIte] at hfind
        rw [sumz_cons, sumz_cons, if_neg ha, ih r hnd.2 hfind]
        ring

/-! ## Claim theorems: the period calculator -/

/-- C8: determine_period returns DISCOUNT exactly when the postmark is on
or before issue + 2 calendar months - 1 day, FACE exactly when it is after
that bound but on or before issue + 4 calendar months - 1 day, and PENALTY
exactly when it is after both bounds, so both boundary days belong to the
earlier bucket; in particular, for issue date 2025-03-01 a postmark of
2025-04-30 is DISCOUNT, 2025-05-01 is FACE and 2025-07-01 is PENALTY. -/
theorem determine_period_windows (postmark issue : Date) :
    (determine_period postmark issue = .DISCOUNT ↔
      dateLE postmark (predDay (addMonths issue 2))) ∧
    (determine_period postmark issue = .FACE ↔
      (dateLT (predDay (addMonths issue 2)) postmark ∧
        dateLE postmark (predDay (addMonths issue 4)))) ∧
    (determine_period postmark issue = .PENALTY ↔
      (dateLT (predDay (addMonths issue 2)) postmark ∧
        dateLT (predDay (addMonths issue 4)) postmark)) ∧
    determine_period ⟨2025, 4, 30⟩ ⟨2025, 3, 1⟩ = .DISCOUNT ∧
    determine_period ⟨2025, 5, 1⟩ ⟨2025, 3, 1⟩ = .FACE ∧
    determine_period ⟨2025, 7, 1⟩ ⟨2025, 3, 1⟩ = .PENALTY := by
  refine ⟨?_, ?_, ?_, by decide, by decide, by decide⟩ <;>
  · simp only [determine_period, dateLE, dateLT]
    split_ifs with h1 h2 <;> simp_all

/-! ## Claim theorems: the payment validator -/

/-- C6: whenever the tendered amount matches the expected amount of the
computed period exactly (the source tests round(tendered - expected, 2) == 0,
which on two-decimal values is equality), validation accepts with
ACCEPTED_FULL; otherwise, for a parcel not on an installment plan, an
overpayment is rejected as REJECTED_OVER citing the overage and anything
else is rejected as REJECTED_UNDER citing the shortfall.  In particular,
for the scenario parcel (face 450.00, discount 441.00, penalty 495.00,
issued 2025-03-01), tendering 441.00 postmarked 2025-04-15 is accepted in
full and tendering 440.99 that day is rejected under, citing $0.01. -/
theorem validate_payment_full_over_under (rec : ParcelRow) (amt : ℤ) (pm : Date)
    (inst : Option ℕ) :
    (amt - get_expected_amount (determine_period pm rec.bill_issue_date) rec = 0 →
      validate_payment rec amt pm inst =
        ⟨true, "Exact Match (Full Payment)", "ACCEPTED_FULL"⟩) ∧
    (rec.is_installment_plan = false →
      amt - get_expected_amount (determine_period pm rec.bill_issue_date) rec ≠ 0 →
      ((amt > get_expected_amount (determine_period pm rec.bill_issue_date) rec →
        validate_payment rec amt pm inst =
          ⟨false, "OVERPAYMENT of $" ++
            fmtCents (amt - get_expected_amount (determine_period pm rec.bill_issue_date) rec) ++
            ". Do not deposit. Issue Refund/Return Check.", "REJECTED_OVER"⟩) ∧
       (¬ amt > get_expected_amount (determine_period pm rec.bill_issue_date) rec →
        validate_payment rec amt pm inst =
          ⟨false, "UNDERPAYMENT of $" ++
            fmtCents (get_expected_amount (determine_period pm rec.bill_issue_date) rec - amt) ++
            ". Exact amount required or valid installment.", "REJECTED_UNDER"⟩))) ∧
    validate_payment scenarioParcel 44100 ⟨2025, 4, 15⟩ none =
      ⟨true, "Exact Match (Full Payment)", "ACCEPTED_FULL"⟩ ∧
    validate_payment scenarioParcel 44099 ⟨2025, 4, 15⟩ none =
      ⟨false, "UNDERPAYMENT of $0.01. Exact amount required or valid installment.",
        "REJECTED_UNDER"⟩ := by
  refine ⟨?_, ?_, by decide, by decide⟩
  · intro h
    simp only [validate_payment]
    rw [if_pos h]
  · intro hplan hne
    constructor <;> intro hcmp <;>
      simp only [validate_payment, hplan] <;> rw [if_neg hne] <;> simp [hcmp]

/-- Witness for C6: a concrete overpayment of 500.00 against the scenario
parcel is rejected over, citing the 59.00 overage. -/
theorem validate_payment_full_over_under_witness :
    validate_payment scenarioParcel 50000 ⟨2025, 4, 15⟩ none =
      ⟨false, "OVERPAYMENT of $" ++
        fmtCents (50000 -
          get_expected_amount (determine_period ⟨2025, 4, 15⟩ scenarioParcel.bill_issue_date)
            scenarioParcel) ++
        ". Do not deposit. Issue Refund/Return Check.", "REJECTED_OVER"⟩ :=
  ((validate_payment_full_over_under scenarioParcel 50000 ⟨2025, 4, 15⟩ none).2.1
    (by decide) (by decide)).1 (by decide)

/-- C7: for an installment-eligible parcel whose tendered amount is not the
full period amount, validation rejects with REJECTED_INSTALLMENT_LATE when
the period is PENALTY and the installment number is unset or 1; otherwise
it accepts a tendered amount equal to round(face / 3, 2) with
ACCEPTED_INSTALLMENT, and, failing that, a tendered amount equal to
round(round(face / 3, 2) * 1.10, 2) with ACCEPTED_INSTALLMENT_PENALTY
(the source checks the plain installment amount first). -/
theorem validate_payment_installments (rec : ParcelRow) (amt : ℤ) (pm : Date)
    (inst : Option ℕ)
    (hplan : rec.is_installment_plan = true)
    (hne : amt - get_expected_amount (determine_period pm rec.bill_issue_date) rec ≠ 0) :
    ((determine_period pm rec.bill_issue_date = .PENALTY ∧ (inst = none ∨ inst = some 1)) →
      validate_payment rec amt pm inst =
        ⟨false, "Installment plan invalid during Penalty Period. Full penalty amount required.",
          "REJECTED_INSTALLMENT_LATE"⟩) ∧
    (¬ (determine_period pm rec.bill_issue_date = .PENALTY ∧ (inst = none ∨ inst = some 1)) →
      ((amt - rheDiv rec.face_tax_amount 3 = 0 →
        validate_payment rec amt pm inst =
          ⟨true, "Exact Match (Installment " ++ toString (pyOrOne inst) ++ ")",
            "ACCEPTED_INSTALLMENT"⟩) ∧
       (amt - rheDiv rec.face_tax_amount 3 ≠ 0 →
        amt - rheDiv (11 * rheDiv rec.face_tax_amount 3) 10 = 0 →
        validate_payment rec amt pm inst =
          ⟨true, "Exact Match (Penalty Installment " ++ fmtOptNat inst ++ ")",
            "ACCEPTED_INSTALLMENT_PENALTY"⟩))) := by
  constructor
  · intro hlate
    simp only [validate_payment, hplan, if_true]
    rw [if_neg hne, if_pos hlate]
  · intro hnl
    constructor
    · intro hinst
      simp only [validate_payment, hplan, if_true]
      rw [if_neg hne, if_neg hnl, if_pos hinst]
    · intro hninst hpen
      simp only [validate_payment, hplan, if_true]
      rw [if_neg hne, if_neg hnl, if_neg hninst, if_pos hpen]

/-- Witness for C7: against the installment-eligible scenario parcel,
tendering the 150.00 installment in the FACE period is accepted as an
installment, tendering the 165.00 penalized installment as installment 2 in
the PENALTY period is accepted as a penalty installment, and tendering
150.00 with no installment number in the PENALTY period is rejected late. -/
theorem validate_payment_installments_witness :
    validate_payment { scenarioParcel with is_installment_plan := true }
        15000 ⟨2025, 5, 15⟩ (some 1) =
      ⟨true, "Exact Match (Installment " ++ toString (pyOrOne (some 1)) ++ ")",
        "ACCEPTED_INSTALLMENT"⟩ ∧
    validate_payment { scenarioParcel with is_installment_plan := true }
        16500 ⟨2025, 7, 15⟩ (some 2) =
      ⟨true, "Exact Match (Penalty Installment " ++ fmtOptNat (some 2) ++ ")",
        "ACCEPTED_INSTALLMENT_PENALTY"⟩ ∧
    validate_payment { scenarioParcel with is_installment_plan := true }
        15000 ⟨2025, 7, 15⟩ none =
      ⟨false, "Installment plan invalid during Penalty Period. Full penalty amount required.",
        "REJECTED_INSTALLMENT_LATE"⟩ := by
  refine ⟨?_, ?_, ?_⟩
  · exact ((validate_payment_installments { scenarioParcel with is_installment_plan := true }
      15000 ⟨2025, 5, 15⟩ (some 1) rfl (by decide)).2 (by decide)).1 (by decide)
  · exact ((validate_payment_installments { scenarioParcel with is_installment_plan := true }
      16500 ⟨2025, 7, 15⟩ (some 2) rfl (by decide)).2 (by decide)).2 (by decide) (by decide)
  · exact (validate_payment_installments { scenarioParcel with is_installment_plan := true }
      15000 ⟨2025, 7, 15⟩ none rfl (by decide)).1 (by decide)

/-! ## Ledger helper lemmas -/

theorem daysInMonth_le_31 (y m : ℕ) : daysInMonth y m ≤ 31 := by
  unfold daysInMonth
  split_ifs <;> simp

/-- For well-formed dates and a real month number, falling in the SQL
closing range of close_month is the same as having that STRFTIME year and
month (the test used by the closure guard of add_transaction). -/
theorem inCloseRange_iff (m y : ℕ) (dt : Date) (hm1 : 1 ≤ m) (hm2 : m ≤ 12)
    (hv : ValidDate dt) :
    inCloseRange m y dt = true ↔ (dt.year = y ∧ dt.month = m) := by
  obtain ⟨h1, h2, h3, h4⟩ := hv
  have h31 : dt.day ≤ 31 := le_trans h4 (daysInMonth_le_31 dt.year dt.month)
  unfold inCloseRange dateKey
  by_cases h12 : m = 12 <;>
    simp only [h12, reduceIte, Bool.and_eq_true, decide_eq_true_eq] <;> omega

/-- A row of the updated parcel table that carries the updated id carries
the new status. -/
theorem ups_status_of_mem (s : DBState) (pid st : String) (p : ParcelRow)
    (hp : p ∈ (update_parcel_status s pid st).tax_duplicate) (hid : p.parcel_id = pid) :
    p.status = st := by
  simp only [update_parcel_status] at hp
  rcases List.mem_map.mp hp with ⟨q, hq, rfl⟩
  unfold updStatusFn at hid ⊢
  by_cases h : q.parcel_id == pid
  · simp [h]
  · rw [if_neg h] at hid ⊢
    exact absurd (by simpa using hid) (by simpa using h)

/-- Components of a successful add_transaction shared by all row types. -/
theorem add_transaction_ok_parts (s : DBState) (d : TxData) (s' : DBState) (id : ℕ)
    (h : add_transaction s d = .ok (s', id)) :
    id = s.next_tx_id ∧
    s'.transactions = s.transactions ++ [mkTransaction d id] ∧
    s'.next_tx_id = s.next_tx_id + 1 := by
  by_cases hguard : (d.transaction_type ≠ some "REJECTED_PAYMENT" ∧
      monthClosedHit s d.date_received.year d.date_received.month = true)
  · simp only [add_transaction] at h
    rw [if_pos hguard] at h
    simp at h
  · simp only [add_transaction] at h
    rw [if_neg hguard] at h
    simp only [Except.ok.injEq, Prod.mk.injEq] at h
    obtain ⟨hs, hid⟩ := h
    subst hid
    subst hs
    refine ⟨rfl, ?_, ?_⟩ <;> split_ifs <;> rfl

/-- Parcel-table effect of a successful PAYMENT append. -/
theorem add_transaction_td_payment (s : DBState) (d : TxData) (s' : DBState) (id : ℕ)
    (h : add_transaction s d = .ok (s', id)) (htype : d.transaction_type = some "PAYMENT") :
    s'.tax_duplicate = s.tax_duplicate.map
      (updStatusFn d.parcel_id (if 10 * d.balance_remaining ≤ 9 then "PAID" else "PARTIAL")) := by
  by_cases hguard : (d.transaction_type ≠ some "REJECTED_PAYMENT" ∧
      monthClosedHit s d.date_received.year d.date_received.month = true)
  · simp only [add_transaction] at h
    rw [if_pos hguard] at h
    simp at h
  · simp only [add_transaction] at h
    rw [if_neg hguard] at h
    simp only [Except.ok.injEq, Prod.mk.injEq] at h
    obtain ⟨hs, _⟩ := h
    subst hs
    rw [htype]
    simp only [Option.some.injEq, String.reduceEq, reduceIte]
    rfl

/-- Parcel-table effect of a successful RETURN append. -/
theorem add_transaction_td_return (s : DBState) (d : TxData) (s' : DBState) (id : ℕ)
    (h : add_transaction s d = .ok (s', id)) (htype : d.transaction_type = some "RETURN") :
    s'.tax_duplicate = s.tax_duplicate.map (updStatusFn d.parcel_id "RETURNED") := by
  by_cases hguard : (d.transaction_type ≠ some "REJECTED_PAYMENT" ∧
      monthClosedHit s d.date_received.year d.date_received.month = true)
  · simp only [add_transaction] at h
    rw [if_pos hguard] at h
    simp at h
  · simp only [add_transaction] at h
    rw [if_neg hguard] at h
    simp only [Except.ok.injEq, Prod.mk.injEq] at h
    obtain ⟨hs, _⟩ := h
    subst hs
    rw [htype]
    simp only [Option.some.injEq, String.reduceEq, reduceIte]
    rfl

/-- Parcel-table effect of a successful EXONERATION append. -/
theorem add_transaction_td_exoneration (s : DBState) (d : TxData) (s' : DBState) (id : ℕ)
    (h : add_transaction s d = .ok (s', id)) (htype : d.transaction_type = some "EXONERATION") :
    s'.tax_duplicate = s.tax_duplicate.map (updStatusFn d.parcel_id "EXONERATED") := by
  by_cases hguard : (d.transaction_type ≠ some "REJECTED_PAYMENT" ∧
      monthClosedHit s d.date_received.year d.date_received.month = true)
  · simp only [add_transaction] at h
    rw [if_pos hguard] at h
    simp at h
  · simp only [add_transaction] at h
    rw [if_neg hguard] at h
    simp only [Except.ok.injEq, Prod.mk.injEq] at h
    obtain ⟨hs, _⟩ := h
    subst hs
    rw [htype]
    simp only [Option.some.injEq, String.reduceEq, reduceIte]
    rfl

/-- Parcel-table effect of a successful append of any other row type. -/
theorem add_transaction_td_other (s : DBState) (d : TxData) (s' : DBState) (id : ℕ)
    (h : add_transaction s d = .ok (s', id))
    (h1 : d.transaction_type ≠ some "PAYMENT")
    (h2 : d.transaction_type ≠ some "RETURN")
    (h3 : d.transaction_type ≠ some "EXONERATION") :
    s'.tax_duplicate = s.tax_duplicate := by
  by_cases hguard : (d.transaction_type ≠ some "REJECTED_PAYMENT" ∧
      monthClosedHit s d.date_received.year d.date_received.month = true)
  · simp only [add_transaction] at h
    rw [if_pos hguard] at h
    simp at h
  · simp only [add_transaction] at h
    rw [if_neg hguard] at h
    simp only [Except.ok.injEq, Prod.mk.injEq] at h
    obtain ⟨hs, _⟩ := h
    subst hs
    rw [if_neg h1, if_neg h2, if_neg h3]

/-- A REJECTED_PAYMENT append always succeeds, regardless of closure. -/
theorem add_transaction_rejected_ok (s : DBState) (d : TxData)
    (htype : d.transaction_type = some "REJECTED_PAYMENT") :
    ∃ s', add_transaction s d = .ok (s', s.next_tx_id) := by
  have hguard : ¬(d.transaction_type ≠ some "REJECTED_PAYMENT" ∧
      monthClosedHit s d.date_received.year d.date_received.month = true) := by
    simp [htype]
  exact ⟨_, by simp only [add_transaction]; rw [if_neg hguard]⟩

/-! ## Claim theorems: the ledger state machine -/

/-- C4 (amended): a successful append inserts the transactions row with
the monotonic next id, but the status derivation keys on the dict's
transaction_type key, not on the inserted row's type: an explicit PAYMENT
key sets PAID when the recorded balance_remaining is at most 0.009
dollars and PARTIAL otherwise, an explicit RETURN sets RETURNED, an
explicit EXONERATION sets EXONERATED, an explicit REJECTED_PAYMENT leaves
the parcel table untouched — and a dict with no transaction_type key (the
pay and ingest paths) also leaves the parcel table untouched even though
the inserted row's stored type is PAYMENT, refuting the claim's PAYMENT
clause. -/
theorem add_transaction_status_transitions (s : DBState) (d : TxData) (s' : DBState) (id : ℕ)
    (h : add_transaction s d = .ok (s', id)) :
    id = s.next_tx_id ∧
    s'.transactions = s.transactions ++ [mkTransaction d id] ∧
    (d.transaction_type = some "PAYMENT" →
      ∀ p ∈ s'.tax_duplicate, p.parcel_id = d.parcel_id →
        p.status = (if 10 * d.balance_remaining ≤ 9 then "PAID" else "PARTIAL")) ∧
    (d.transaction_type = some "RETURN" →
      ∀ p ∈ s'.tax_duplicate, p.parcel_id = d.parcel_id → p.status = "RETURNED") ∧
    (d.transaction_type = some "EXONERATION" →
      ∀ p ∈ s'.tax_duplicate, p.parcel_id = d.parcel_id → p.status = "EXONERATED") ∧
    (d.transaction_type = some "REJECTED_PAYMENT" → s'.tax_duplicate = s.tax_duplicate) ∧
    (d.transaction_type = none →
      (mkTransaction d id).transaction_type = "PAYMENT" ∧
      s'.tax_duplicate = s.tax_duplicate) := by
  obtain ⟨hid, htx, _⟩ := add_transaction_ok_parts s d s' id h
  refine ⟨hid, htx, ?_, ?_, ?_, ?_, ?_⟩
  · intro htype p hp hpid
    rw [add_transaction_td_payment s d s' id h htype] at hp
    rcases List.mem_map.mp hp with ⟨q, _, rfl⟩
    unfold updStatusFn at hpid ⊢
    by_cases hq : q.parcel_id == d.parcel_id
    · simp [hq]
    · rw [if_neg hq] at hpid ⊢
      exact absurd (by simpa using hpid) (by simpa using hq)
  · intro htype p hp hpid
    rw [add_transaction_td_return s d s' id h htype] at hp
    rcases List.mem_map.mp hp with ⟨q, _, rfl⟩
    unfold updStatusFn at hpid ⊢
    by_cases hq : q.parcel_id == d.parcel_id
    · simp [hq]
    · rw [if_neg hq] at hpid ⊢
      exact absurd (by simpa using hpid) (by simpa using hq)
  · intro htype p hp hpid
    rw [add_transaction_td_exoneration s d s' id h htype] at hp
    rcases List.mem_map.mp hp with ⟨q, _, rfl⟩
    unfold updStatusFn at hpid ⊢
    by_cases hq : q.parcel_id == d.parcel_id
    · simp [hq]
    · rw [if_neg hq] at hpid ⊢
      exact absurd (by simpa using hpid) (by simpa using hq)
  · intro htype
    exact add_transaction_td_other s d s' id h (by simp [htype]) (by simp [htype])
      (by simp [htype])
  · intro htype
    refine ⟨by simp [mkTransaction, htype], ?_⟩
    exact add_transaction_td_other s d s' id h (by simp [htype]) (by simp [htype])
      (by simp [htype])

/-- Witness for C4 (amended): appending the exact discount payment with
the explicit PAYMENT type to the unpaid scenario parcel inserts row 1 and
flips the parcel to PAID, while the CLI pay command's typeless dict for
the same payment inserts a PAYMENT-typed row and leaves the parcel table
unchanged. -/
theorem add_transaction_status_transitions_witness :
    (afterExplicitPay.transactions =
      oneParcelState.transactions ++ [mkTransaction explicitPayData 1] ∧
     afterExplicitPay.tax_duplicate = [{ scenarioParcel with status := "PAID" }]) ∧
    ((mkTransaction discountPayData 1).transaction_type = "PAYMENT" ∧
     afterDiscountPay.tax_duplicate = oneParcelState.tax_duplicate) := by
  have h : add_transaction oneParcelState explicitPayData = .ok (afterExplicitPay, 1) := by
    rfl
  have h2 : add_transaction oneParcelState discountPayData = .ok (afterDiscountPay, 1) := by
    rfl
  have H2 := (add_transaction_status_transitions oneParcelState discountPayData
    afterDiscountPay 1 h2).2.2.2.2.2.2 rfl
  exact ⟨⟨(add_transaction_status_transitions oneParcelState explicitPayData
    afterExplicitPay 1 h).2.1, by decide⟩, H2.1, by rw [H2.2]⟩

/-- Counterexample to C4 as stated: the CLI pay command's accepted dict
for the exact discount payment carries no transaction_type key, so the
appended row's stored type is PAYMENT yet the scenario parcel's status
stays UNPAID instead of becoming PAID — the claim's PAYMENT clause fails
on the program's own payment path. -/
theorem typeless_payment_no_status_counterexample :
    add_transaction oneParcelState discountPayData = .ok (afterDiscountPay, 1) ∧
    (mkTransaction discountPayData 1).transaction_type = "PAYMENT" ∧
    10 * discountPayData.balance_remaining ≤ 9 ∧
    afterDiscountPay.transactions =
      oneParcelState.transactions ++ [mkTransaction discountPayData 1] ∧
    afterDiscountPay.tax_duplicate = [scenarioParcel] ∧
    scenarioParcel.status = "UNPAID" :=
  ⟨by rfl, by decide, by decide, by decide, by decide, by decide⟩

/-- C9: closing a calendar month that holds no transactions closes zero
rows, leaves the transactions table unchanged, and does not lock the month:
a later append of any type dated in that month still succeeds, because the
closure guard only fires when an already-closed row exists in the month. -/
theorem close_empty_month_no_lock (s : DBState) (m y : ℕ) (d : TxData)
    (hm1 : 1 ≤ m) (hm2 : m ≤ 12)
    (hvalid : ∀ t ∈ s.transactions, ValidDate t.date_received)
    (hempty : ∀ t ∈ s.transactions,
      ¬(t.date_received.year = y ∧ t.date_received.month = m))
    (hdy : d.date_received.year = y) (hdm : d.date_received.month = m) :
    (close_month s m y).2 = 0 ∧
    (close_month s m y).1.transactions = s.transactions ∧
    ∃ s' id, add_transaction (close_month s m y).1 d = .ok (s', id) := by
  have hrange : ∀ t ∈ s.transactions,
      (inCloseRange m y t.date_received && !t.is_closed) = false := by
    intro t ht
    have : inCloseRange m y t.date_received = false := by
      by_contra hc
      have := (inCloseRange_iff m y t.date_received hm1 hm2 (hvalid t ht)).mp
        (by revert hc; cases inCloseRange m y t.date_received <;> simp)
      exact hempty t ht this
    simp [this]
  have htxs : (close_month s m y).1.transactions = s.transactions := by
    simp only [close_month]
    have : ∀ t ∈ s.transactions, closeFn m y t = t := by
      intro t ht
      unfold closeFn
      rw [hrange t ht]
      simp
    rw [List.map_congr_left this, List.map_id']
  refine ⟨?_, htxs, ?_⟩
  · simp only [close_month]
    have : s.transactions.filter
        (fun t => inCloseRange m y t.date_received && !t.is_closed) = [] := by
      rw [List.filter_eq_nil_iff]
      intro t ht
      simp [hrange t ht]
    rw [this]
    rfl
  · have hhit : monthClosedHit (close_month s m y).1 d.date_received.year
        d.date_received.month = false := by
      unfold monthClosedHit
      rw [htxs]
      rw [List.any_eq_false]
      intro t ht
      have := hempty t ht
      rw [hdy, hdm]
      simp only [Bool.and_eq_true, beq_iff_eq, Bool.not_eq_true]
      intro hcon
      exact absurd ⟨hcon.1.1, hcon.1.2⟩ this
    have hguard : ¬(d.transaction_type ≠ some "REJECTED_PAYMENT" ∧
        monthClosedHit (close_month s m y).1 d.date_received.year
          d.date_received.month = true) := by
      simp [hhit]
    exact ⟨_, _, by simp only [add_transaction]; rw [if_neg hguard]⟩

/-- Witness for C9: closing April 2025 on a fresh empty database closes 0
rows and payment data dated 2025-04-15 still appends successfully. -/
theorem close_empty_month_no_lock_witness :
    (close_month initState 4 2025).2 = 0 ∧
    (close_month initState 4 2025).1.transactions = initState.transactions ∧
    add_transaction (close_month initState 4 2025).1 discountPayData =
      .ok (afterEmptyClosePay, 1) := by
  have H := close_empty_month_no_lock initState 4 2025 discountPayData
    (by decide) (by decide)
    (by intro t ht; simp [initState] at ht)
    (by intro t ht; simp [initState] at ht)
    (by decide) (by decide)
  exact ⟨H.1, H.2.1, by rfl⟩

/-- C10: appending a PAYMENT whose parcel id is absent from the parcel
table succeeds without any not-found error (assuming its month is not
closed): the transactions row is inserted, the parcel table is unchanged,
and the derived status update audits a change from the placeholder old
status UNKNOWN. -/
theorem add_transaction_missing_parcel (s : DBState) (d : TxData)
    (hnone : find_parcel s d.parcel_id = none)
    (htype : d.transaction_type = some "PAYMENT")
    (hopen : monthClosedHit s d.date_received.year d.date_received.month = false) :
    add_transaction s d = .ok
      ({ tax_duplicate := s.tax_duplicate
         transactions := s.transactions ++ [mkTransaction d s.next_tx_id]
         change_log := s.change_log ++
           [⟨"tax_duplicate", d.parcel_id, "UPDATE", some "status", "UNKNOWN",
              if 10 * d.balance_remaining ≤ 9 then "PAID" else "PARTIAL"⟩,
            ⟨"transactions", toString s.next_tx_id, "INSERT", some "amount_paid", "0.00",
              fmtCents d.amount_paid⟩]
         system_log := s.system_log ++
           [("TRANSACTION", "Added transaction for " ++ d.parcel_id ++ ": " ++
             fmtCents d.amount_paid)]
         next_tx_id := s.next_tx_id + 1 }, s.next_tx_id) := by
  have hguard : ¬(d.transaction_type ≠ some "REJECTED_PAYMENT" ∧
      monthClosedHit s d.date_received.year d.date_received.month = true) := by
    simp [hopen]
  have hmapid : s.tax_duplicate.map
      (updStatusFn d.parcel_id (if 10 * d.balance_remaining ≤ 9 then "PAID" else "PARTIAL")) =
      s.tax_duplicate := by
    have hmem : ∀ p ∈ s.tax_duplicate, (p.parcel_id == d.parcel_id) = false := by
      intro p hp
      have := List.find?_eq_none.mp hnone p hp
      simpa using this
    have hcongr : ∀ p ∈ s.tax_duplicate,
        updStatusFn d.parcel_id
          (if 10 * d.balance_remaining ≤ 9 then "PAID" else "PARTIAL") p = p := by
      intro p hp
      unfold updStatusFn
      rw [hmem p hp]
      simp
    rw [List.map_congr_left hcongr, List.map_id']
  have hfindupd : find_parcel { s with
      transactions := s.transactions ++ [mkTransaction d s.next_tx_id]
      next_tx_id := s.next_tx_id + 1 } d.parcel_id = none := hnone
  simp only [add_transaction]
  rw [if_neg hguard, htype]
  simp only [Option.some.injEq, String.reduceEq, reduceIte]
  simp only [update_parcel_status, hfindupd]
  have hne : "UNKNOWN" ≠ (if 10 * d.balance_remaining ≤ 9 then "PAID" else "PARTIAL") := by
    split_ifs <;> decide
  rw [if_pos hne]
  simp only [Except.ok.injEq, Prod.mk.injEq, DBState.mk.injEq]
  refine ⟨⟨hmapid, ?_, ?_, ?_, ?_⟩, ?_⟩ <;> simp

/-- Witness for C10: a payment against the absent parcel id P-404 on a
fresh database succeeds and audits an UNKNOWN-to-PAID status change. -/
theorem add_transaction_missing_parcel_witness :
    add_transaction initState missingParcelPayData = .ok
      ({ tax_duplicate := initState.tax_duplicate
         transactions := initState.transactions ++
           [mkTransaction missingParcelPayData initState.next_tx_id]
         change_log := initState.change_log ++
           [⟨"tax_duplicate", missingParcelPayData.parcel_id, "UPDATE", some "status",
              "UNKNOWN",
              if 10 * missingParcelPayData.balance_remaining ≤ 9 then "PAID" else "PARTIAL"⟩,
            ⟨"transactions", toString initState.next_tx_id, "INSERT", some "amount_paid",
              "0.00", fmtCents missingParcelPayData.amount_paid⟩]
         system_log := initState.system_log ++
           [("TRANSACTION", "Added transaction for " ++ missingParcelPayData.parcel_id ++
             ": " ++ fmtCents missingParcelPayData.amount_paid)]
         next_tx_id := initState.next_tx_id + 1 }, initState.next_tx_id) :=
  add_transaction_missing_parcel initState missingParcelPayData (by rfl) (by rfl) (by rfl)

/-! ## Closure persistence -/

theorem add_interim_ok_transactions (s : DBState) (pd : InterimParcelData) (s' : DBState)
    (h : add_interim_parcel s pd = .ok s') : s'.transactions = s.transactions := by
  unfold add_interim_parcel at h
  cases hf : find_parcel s pd.parcel_id <;> rw [hf] at h
  · simp only [Except.ok.injEq] at h
    subst h
    rfl
  · simp at h

theorem update_parcel_info_ok_transactions (s : DBState) (pid : String)
    (nn na : Option String) (s' : DBState)
    (h : update_parcel_info s pid nn na = .ok s') : s'.transactions = s.transactions := by
  unfold update_parcel_info at h
  cases hf : find_parcel s pid <;> rw [hf] at h
  · simp at h
  · simp only [Except.ok.injEq] at h
    subst h
    split_ifs <;> rfl

theorem process_nsf_ok_transactions (s : DBState) (tx_id : ℕ) (today : Date) (s' : DBState)
    (h : process_nsf_reversal s tx_id today = .ok s') :
    ∃ row, s'.transactions = s.transactions ++ [row] := by
  unfold process_nsf_reversal at h
  cases hf : find_transaction s tx_id <;> rw [hf] at h
  · simp at h
  · simp only [Except.ok.injEq] at h
    subst h
    exact ⟨_, rfl⟩

/-- Closing a month turns a well-dated transaction row of that month into a
closed row of that month. -/
theorem close_month_creates (s : DBState) (m y : ℕ) (t : Transaction)
    (hm1 : 1 ≤ m) (hm2 : m ≤ 12)
    (ht : t ∈ s.transactions) (htv : ValidDate t.date_received)
    (hty : t.date_received.year = y) (htm : t.date_received.month = m) :
    hasClosedInMonth (close_month s m y).1 y m := by
  refine ⟨closeFn m y t, List.mem_map_of_mem (closeFn m y) ht, ?_, ?_, ?_⟩
  · unfold closeFn
    split_ifs <;> simp [hty]
  · unfold closeFn
    split_ifs <;> simp [htm]
  · unfold closeFn
    by_cases hc : t.is_closed
    · split_ifs <;> simp [hc]
    · have hr : inCloseRange m y t.date_received = true :=
        (inCloseRange_iff m y t.date_received hm1 hm2 htv).mpr ⟨hty, htm⟩
      rw [if_pos (by simp [hr, hc])]

/-- Already-closed rows of a month survive every further command: the
ledger only ever appends rows or raises is_closed flags. -/
theorem applyOp_preserves_hasClosed (s : DBState) (op : LedgerOp) (y m : ℕ)
    (h : hasClosedInMonth s y m) : hasClosedInMonth (applyOp s op) y m := by
  obtain ⟨t, ht, hty, htm, htc⟩ := h
  have hext : ∀ s' : DBState, (∀ u ∈ s.transactions, u ∈ s'.transactions) →
      hasClosedInMonth s' y m :=
    fun s' hsub => ⟨t, hsub t ht, hty, htm, htc⟩
  cases op with
  | importDuplicate row => exact ⟨t, ht, hty, htm, htc⟩
  | addInterim pd =>
      simp only [applyOp]
      cases hadd : add_interim_parcel s pd with
      | ok s' =>
          apply hext
          intro u hu
          rw [add_interim_ok_transactions s pd s' hadd]
          exact hu
      | error e => exact ⟨t, ht, hty, htm, htc⟩
  | pay parcel amount date check inum =>
      simp only [applyOp]
      cases hf : find_parcel s parcel with
      | none => exact ⟨t, ht, hty, htm, htc⟩
      | some row =>
          dsimp only
          split_ifs with hok
          · cases hadd : add_transaction s (acceptedTxData row amount date check inum) with
            | ok pr =>
                apply hext
                intro u hu
                rw [(add_transaction_ok_parts s _ pr.1 pr.2 (by rw [hadd])).2.1]
                exact List.mem_append_left _ hu
            | error e => exact ⟨t, ht, hty, htm, htc⟩
          · cases hadd : add_transaction s
                (rejectedTxData row amount date check (validate_payment row amount date inum)) with
            | ok pr =>
                apply hext
                intro u hu
                rw [(add_transaction_ok_parts s _ pr.1 pr.2 (by rw [hadd])).2.1]
                exact List.mem_append_left _ hu
            | error e => exact ⟨t, ht, hty, htm, htc⟩
  | appendPayment parcel amount date check =>
      simp only [applyOp]
      cases hf : find_parcel s parcel with
      | none => exact ⟨t, ht, hty, htm, htc⟩
      | some row =>
          dsimp only
          cases hadd : add_transaction s (paymentTxData row amount date check) with
          | ok pr =>
              apply hext
              intro u hu
              rw [(add_transaction_ok_parts s _ pr.1 pr.2 (by rw [hadd])).2.1]
              exact List.mem_append_left _ hu
          | error e => exact ⟨t, ht, hty, htm, htc⟩
  | exonerate parcel amount date reason =>
      simp only [applyOp]
      cases hadd : add_transaction s (exonerationTxData parcel amount date reason) with
      | ok pr =>
          apply hext
          intro u hu
          rw [(add_transaction_ok_parts s _ pr.1 pr.2 (by rw [hadd])).2.1]
          exact List.mem_append_left _ hu
      | error e => exact ⟨t, ht, hty, htm, htc⟩
  | appendReturn parcel amount date =>
      simp only [applyOp]
      cases hadd : add_transaction s (returnTxData parcel amount date) with
      | ok pr =>
          apply hext
          intro u hu
          rw [(add_transaction_ok_parts s _ pr.1 pr.2 (by rw [hadd])).2.1]
          exact List.mem_append_left _ hu
      | error e => exact ⟨t, ht, hty, htm, htc⟩
  | nsf tx_id today =>
      simp only [applyOp]
      cases hn : process_nsf_reversal s tx_id today with
      | ok s' =>
          obtain ⟨row, hrow⟩ := process_nsf_ok_transactions s tx_id today s' hn
          apply hext
          intro u hu
          rw [hrow]
          exact List.mem_append_left _ hu
      | error e => exact ⟨t, ht, hty, htm, htc⟩
  | closeMonth m' y' =>
      refine ⟨closeFn m' y' t, List.mem_map_of_mem (closeFn m' y') ht, ?_⟩
      have : closeFn m' y' t = t := by
        unfold closeFn
        rw [if_neg (by simp [htc])]
      rw [this]
      exact ⟨hty, htm, htc⟩
  | updateParcel parcel nn na =>
      simp only [applyOp]
      cases hupd : update_parcel_info s parcel nn na with
      | ok s' =>
          apply hext
          intro u hu
          rw [update_parcel_info_ok_transactions s parcel nn na s' hupd]
          exact hu
      | error e => exact ⟨t, ht, hty, htm, htc⟩

theorem applyOps_preserves_hasClosed (ops : List LedgerOp) (y m : ℕ) :
    ∀ s : DBState, hasClosedInMonth s y m → hasClosedInMonth (applyOps s ops) y m := by
  induction ops with
  | nil => intro s h; exact h
  | cons op rest ih =>
      intro s h
      exact ih (applyOp s op) (applyOp_preserves_hasClosed s op y m h)

/-! ## Claim theorem: month closure blocks appends -/

/-- C5: once close has closed a calendar month containing a transaction,
every subsequent append dated in that month, after any further sequence of
ledger commands, fails with the locked-month error, except appends of type
REJECTED_PAYMENT, which always succeed regardless of closure. -/
theorem closed_month_blocks_appends (s : DBState) (m y : ℕ) (ops : List LedgerOp)
    (d : TxData) (t : Transaction)
    (hm1 : 1 ≤ m) (hm2 : m ≤ 12)
    (ht : t ∈ s.transactions) (htv : ValidDate t.date_received)
    (hty : t.date_received.year = y) (htm : t.date_received.month = m)
    (hdy : d.date_received.year = y) (hdm : d.date_received.month = m) :
    (d.transaction_type ≠ some "REJECTED_PAYMENT" →
      add_transaction (applyOps (close_month s m y).1 ops) d =
        .error ("Month " ++ toString d.date_received.month ++ "/" ++
          toString d.date_received.year ++
          " is already closed. Cannot add new transactions.")) ∧
    (d.transaction_type = some "REJECTED_PAYMENT" →
      ∃ s' id, add_transaction (applyOps (close_month s m y).1 ops) d = .ok (s', id)) := by
  have h0 : hasClosedInMonth (close_month s m y).1 y m :=
    close_month_creates s m y t hm1 hm2 ht htv hty htm
  have h1 : hasClosedInMonth (applyOps (close_month s m y).1 ops) y m :=
    applyOps_preserves_hasClosed ops y m _ h0
  obtain ⟨u, hu, huy, hum, huc⟩ := h1
  have hhit : monthClosedHit (applyOps (close_month s m y).1 ops)
      d.date_received.year d.date_received.month = true := by
    unfold monthClosedHit
    rw [List.any_eq_true]
    exact ⟨u, hu, by simp [huy, hum, huc, hdy, hdm]⟩
  constructor
  · intro hne
    simp only [add_transaction]
    rw [if_pos ⟨hne, hhit⟩]
  · intro hrej
    obtain ⟨s', hok⟩ := add_transaction_rejected_ok _ d hrej
    exact ⟨s', _, hok⟩

/-- Witness for C5: after the accepted April 2025 payment, closing April
2025 blocks a further April 2025 payment append with the locked-month
error. -/
theorem closed_month_blocks_appends_witness :
    add_transaction (applyOps (close_month afterDiscountPay 4 2025).1 []) discountPayData =
      .error "Month 4/2025 is already closed. Cannot add new transactions." := by
  have H := closed_month_blocks_appends afterDiscountPay 4 2025 [] discountPayData
    (mkTransaction discountPayData 1) (by decide) (by decide) (by decide) (by decide)
    (by decide) (by decide) (by decide) (by decide)
  exact H.1 (by decide)

/-! ## Claim theorems: NSF reversal -/

/-- Counterexample to C2 as stated: in the NSF scenario the transactions
table holds exactly the accepted 441.00 payment and its NSF reversal
(amounts 441.00 and -441.00), yet the settlement's total cash collected is
441.00, not 0 - the NSF_REVERSAL row is excluded from the PAYMENT-filtered
cash sum, so the pair's net contribution to total cash collected is the
original amount rather than 0. -/
theorem nsf_cash_contribution_counterexample :
    nsfScenario.transactions.map (fun t => t.transaction_type) =
      ["PAYMENT", "NSF_REVERSAL"] ∧
    nsfScenario.transactions.map (fun t => t.amount_paid) = [44100, -44100] ∧
    total_cash_collected nsfScenario = 44100 ∧
    total_cash_collected nsfScenario ≠ 0 := by
  refine ⟨by decide, by decide, by decide, by decide⟩

/-- C2 (amended): NSF reversal of an existing transaction T inserts a new
NSF_REVERSAL row with amount -T.amount, balance_remaining T.amount and the
same parcel, check, period and installment metadata, sets the parcel's
status to UNPAID, and fails with the not-found error when the id does not
exist; the amounts of T and its reversal sum to 0, but the settlement's
total cash collected is unchanged by the reversal and so still includes
T.amount (the reversal row is excluded by the PAYMENT filter). -/
theorem process_nsf_reversal_behavior (s : DBState) (tx_id : ℕ) (today : Date) :
    (find_transaction s tx_id = none →
      process_nsf_reversal s tx_id today = .error "Transaction not found") ∧
    (∀ T, find_transaction s tx_id = some T →
      process_nsf_reversal s tx_id today = .ok (nsfApplied s tx_id today T) ∧
      (nsfApplied s tx_id today T).transactions =
        s.transactions ++ [nsfReversalRow s tx_id today T] ∧
      (nsfReversalRow s tx_id today T).transaction_type = "NSF_REVERSAL" ∧
      (nsfReversalRow s tx_id today T).amount_paid = -T.amount_paid ∧
      (nsfReversalRow s tx_id today T).balance_remaining = T.amount_paid ∧
      (nsfReversalRow s tx_id today T).parcel_id = T.parcel_id ∧
      (nsfReversalRow s tx_id today T).check_number = T.check_number ∧
      (nsfReversalRow s tx_id today T).payment_period = T.payment_period ∧
      (nsfReversalRow s tx_id today T).installment_number = T.installment_number ∧
      (∀ p ∈ (nsfApplied s tx_id today T).tax_duplicate,
        p.parcel_id = T.parcel_id → p.status = "UNPAID") ∧
      T.amount_paid + (nsfReversalRow s tx_id today T).amount_paid = 0 ∧
      total_cash_collected (nsfApplied s tx_id today T) = total_cash_collected s) := by
  constructor
  · intro hnone
    unfold process_nsf_reversal
    rw [hnone]
  · intro T hfind
    refine ⟨by unfold process_nsf_reversal; rw [hfind], rfl, rfl, rfl, rfl, rfl, rfl, rfl,
      rfl, ?_, by simp [nsfReversalRow], ?_⟩
    · intro p hp hpid
      exact ups_status_of_mem _ _ _ p hp hpid
    · unfold total_cash_collected
      have htx : (nsfApplied s tx_id today T).transactions =
          s.transactions ++ [nsfReversalRow s tx_id today T] := rfl
      rw [htx, sumz_append]
      simp [sumz_cons, sumz_nil, nsfReversalRow, cashTerm]

/-- Witness for C2: reversing transaction 1 of the paid scenario yields the
NSF scenario state with its cash total unchanged, and reversing a missing
transaction id on a fresh database raises the not-found error. -/
theorem process_nsf_reversal_behavior_witness :
    total_cash_collected nsfScenario = total_cash_collected afterDiscountPay ∧
    process_nsf_reversal initState 99 ⟨2025, 8, 1⟩ = .error "Transaction not found" := by
  constructor
  · have H := (process_nsf_reversal_behavior afterDiscountPay 1 ⟨2025, 8, 1⟩).2
      (mkTransaction discountPayData 1) (by rfl)
    have hcash := H.2.2.2.2.2.2.2.2.2.2.2
    have hs : nsfApplied afterDiscountPay 1 ⟨2025, 8, 1⟩ (mkTransaction discountPayData 1) =
        nsfScenario := by rfl
    rw [hs] at hcash
    exact hcash
  · exact (process_nsf_reversal_behavior initState 99 ⟨2025, 8, 1⟩).1 (by rfl)

/-! ## Claim theorems: the audit trail -/

/-- Counterexample to C3 as stated: in the NSF scenario two transaction
rows were inserted (the accepted payment and its NSF reversal), but the
whole audit log is the single transactions-table entry of the payment
append - the NSF_REVERSAL insert, performed directly rather than through
append, produced none, and no status entry was ever written (the accepted
pay dict carries no transaction_type key, so the status branch is skipped,
and the NSF reversal rewrites UNPAID to UNPAID, which logs nothing). -/
theorem nsf_insert_audit_counterexample :
    nsfScenario.transactions.length = 2 ∧
    (nsfScenario.change_log.filter (fun e => e.table_name == "transactions")).length = 1 ∧
    nsfScenario.change_log.map (fun e => e.table_name) = ["transactions"] := by
  refine ⟨by decide, by decide, by decide⟩

/-- The status-change audit entry never lands in the transactions-table
slice of the audit log. -/
theorem filter_tx_change_log_ups (s : DBState) (pid st : String) :
    (update_parcel_status s pid st).change_log.filter
      (fun e => e.table_name == "transactions") =
    s.change_log.filter (fun e => e.table_name == "transactions") := by
  simp only [update_parcel_status]
  split_ifs <;> simp [List.filter_append]

/-- C3 (amended): a transaction insert performed through append writes
exactly one transactions-table audit entry, while the direct NSF_REVERSAL
insert of process_nsf_reversal writes none; an append whose dict has no
transaction_type key (the pay and ingest paths) writes that insert entry
and nothing else — in particular no status entry, the status branch being
skipped; a parcel status write audits exactly one status entry when the
new status differs from the old and none when it is unchanged; and an
owner/address correction audits exactly one entry per supplied field. -/
theorem audit_log_per_mutation (s : DBState) :
    (∀ d s' id, add_transaction s d = .ok (s', id) →
      (s'.change_log.filter (fun e => e.table_name == "transactions")).length =
        (s.change_log.filter (fun e => e.table_name == "transactions")).length + 1) ∧
    (∀ d s' id, d.transaction_type = none → add_transaction s d = .ok (s', id) →
      s'.change_log = s.change_log ++
        [⟨"transactions", toString id, "INSERT", some "amount_paid", "0.00",
          fmtCents d.amount_paid⟩]) ∧
    (∀ tx_id today s', process_nsf_reversal s tx_id today = .ok s' →
      (s'.change_log.filter (fun e => e.table_name == "transactions")).length =
        (s.change_log.filter (fun e => e.table_name == "transactions")).length) ∧
    (∀ pid st row, find_parcel s pid = some row →
      ((row.status = st → (update_parcel_status s pid st).change_log = s.change_log) ∧
       (row.status ≠ st → (update_parcel_status s pid st).change_log =
          s.change_log ++
            [⟨"tax_duplicate", pid, "UPDATE", some "status", row.status, st⟩]))) ∧
    (∀ pid nn na row s', find_parcel s pid = some row →
      pyTruthy nn = true → pyTruthy na = true →
      update_parcel_info s pid nn na = .ok s' →
      s'.change_log = s.change_log ++
        [⟨"tax_duplicate", pid, "UPDATE", some "owner_name", row.owner_name, nn.getD ""⟩,
         ⟨"tax_duplicate", pid, "UPDATE", some "mailing_address", row.mailing_address,
           na.getD ""⟩]) := by
  refine ⟨?_, ?_, ?_, ?_, ?_⟩
  · intro d s' id h
    by_cases hguard : (d.transaction_type ≠ some "REJECTED_PAYMENT" ∧
        monthClosedHit s d.date_received.year d.date_received.month = true)
    · simp only [add_transaction] at h
      rw [if_pos hguard] at h
      simp at h
    · simp only [add_transaction] at h
      rw [if_neg hguard] at h
      simp only [Except.ok.injEq, Prod.mk.injEq] at h
      obtain ⟨hs, _⟩ := h
      subst hs
      rw [List.filter_append, List.length_append]
      have h1 : (List.filter (fun e => e.table_name == "transactions")
          [(⟨"transactions", toString s.next_tx_id, "INSERT", some "amount_paid", "0.00",
            fmtCents d.amount_paid⟩ : ChangeLogEntry)]).length = 1 := by simp
      rw [h1]
      congr 1
      split_ifs <;> first
        | rfl
        | rw [filter_tx_change_log_ups]
  · intro d s' id hnone h
    by_cases hguard : (d.transaction_type ≠ some "REJECTED_PAYMENT" ∧
        monthClosedHit s d.date_received.year d.date_received.month = true)
    · simp only [add_transaction] at h
      rw [if_pos hguard] at h
      simp at h
    · simp only [add_transaction] at h
      rw [if_neg hguard] at h
      simp only [Except.ok.injEq, Prod.mk.injEq] at h
      obtain ⟨hs, hid⟩ := h
      subst hid
      subst hs
      simp [hnone]
  · intro tx_id today s' h
    unfold process_nsf_reversal at h
    cases hf : find_transaction s tx_id <;> rw [hf] at h
    · simp at h
    · simp only [Except.ok.injEq] at h
      subst h
      dsimp only [nsfApplied]
      rw [filter_tx_change_log_ups]
  · intro pid st row hfind
    simp only [update_parcel_status, hfind]
    constructor
    · intro heq
      rw [if_neg (not_not_intro heq)]
    · intro hne
      rw [if_pos hne]
  · intro pid nn na row s' hfind ht1 ht2 h
    unfold update_parcel_info at h
    rw [hfind] at h
    simp only [ht1, ht2, if_true, Except.ok.injEq] at h
    subst h
    simp

/-- Witness for C3 (amended): on concrete states, the accepted payment
append adds one transactions-table audit entry and, its dict having no
transaction_type key, nothing else; the NSF reversal adds none; rewriting
the status to its current value audits nothing; and the double
owner/address correction audits one entry per field. -/
theorem audit_log_per_mutation_witness :
    (afterDiscountPay.change_log.filter (fun e => e.table_name == "transactions")).length =
      (oneParcelState.change_log.filter (fun e => e.table_name == "transactions")).length + 1 ∧
    afterDiscountPay.change_log = oneParcelState.change_log ++
      [⟨"transactions", toString 1, "INSERT", some "amount_paid", "0.00",
        fmtCents discountPayData.amount_paid⟩] ∧
    (nsfScenario.change_log.filter (fun e => e.table_name == "transactions")).length =
      (afterDiscountPay.change_log.filter (fun e => e.table_name == "transactions")).length ∧
    (update_parcel_status oneParcelState "P-001" "UNPAID").change_log =
      oneParcelState.change_log ∧
    afterInfoUpdate.change_log = oneParcelState.change_log ++
      [⟨"tax_duplicate", "P-001", "UPDATE", some "owner_name", scenarioParcel.owner_name,
         (some "New Owner").getD ""⟩,
       ⟨"tax_duplicate", "P-001", "UPDATE", some "mailing_address",
         scenarioParcel.mailing_address, (some "2 Oak St").getD ""⟩] := by
  refine ⟨?_, ?_, ?_, ?_, ?_⟩
  · exact (audit_log_per_mutation oneParcelState).1 discountPayData afterDiscountPay 1 (by rfl)
  · exact (audit_log_per_mutation oneParcelState).2.1 discountPayData afterDiscountPay 1
      (by rfl) (by rfl)
  · exact (audit_log_per_mutation afterDiscountPay).2.2.1 1 ⟨2025, 8, 1⟩ nsfScenario (by rfl)
  · exact ((audit_log_per_mutation oneParcelState).2.2.2.1 "P-001" "UNPAID" scenarioParcel
      (by rfl)).1 (by rfl)
  · exact (audit_log_per_mutation oneParcelState).2.2.2.2 "P-001" (some "New Owner")
      (some "2 Oak St") scenarioParcel afterInfoUpdate (by rfl) (by rfl) (by rfl) (by rfl)

/-! ## Settlement invariant machinery -/

theorem sumz_sub {α : Type} (l : List α) (f g : α → ℤ) :
    sumz l (fun a => f a - g a) = sumz l f - sumz l g := by
  induction l with
  | nil => rfl
  | cons a t ih =>
      rw [sumz_cons, sumz_cons, sumz_cons, ih]
      ring

theorem findRow_map_keyPreserving (f : ParcelRow → ParcelRow)
    (hkey : ∀ p, (f p).parcel_id = p.parcel_id) (x : String) (l : List ParcelRow) :
    findRow (l.map f) x = (findRow l x).map f := by
  induction l with
  | nil => rfl
  | cons a t ih =>
      unfold findRow at *
      by_cases h : a.parcel_id == x
      · simp [List.find?_cons, hkey, h]
      · simp only [List.map_cons, List.find?_cons, hkey, h]
        exact ih

theorem findRow_append_left (l₁ l₂ : List ParcelRow) (x : String) (r : ParcelRow)
    (h : findRow l₁ x = some r) : findRow (l₁ ++ l₂) x = some r := by
  unfold findRow at *
  induction l₁ with
  | nil => simp at h
  | cons a t ih =>
      simp only [List.cons_append, List.find?_cons] at *
      by_cases ha : a.parcel_id == x
      · simpa [ha] using h
      · simp only [ha] at h ⊢
        exact ih h

theorem findRow_mem (l : List ParcelRow) (x : String) (r : ParcelRow)
    (h : findRow l x = some r) : r ∈ l :=
  List.mem_of_find?_eq_some h

theorem findRow_key (l : List ParcelRow) (x : String) (r : ParcelRow)
    (h : findRow l x = some r) : r.parcel_id = x := by
  have := List.find?_some h
  simpa using this

theorem findRow_self (l : List ParcelRow) (x : String) (r : ParcelRow)
    (h : findRow l x = some r) : findRow l r.parcel_id = some r := by
  rw [findRow_key l x r h]
  exact h

theorem updStatusFn_parcel_id (pid st : String) (p : ParcelRow) :
    (updStatusFn pid st p).parcel_id = p.parcel_id := by
  unfold updStatusFn
  split <;> rfl

theorem updStatusFn_face (pid st : String) (p : ParcelRow) :
    (updStatusFn pid st p).face_tax_amount = p.face_tax_amount := by
  unfold updStatusFn
  split <;> rfl

theorem updStatusFn_penalty (pid st : String) (p : ParcelRow) :
    (updStatusFn pid st p).penalty_amount = p.penalty_amount := by
  unfold updStatusFn
  split <;> rfl

theorem updStatusFn_interim (pid st : String) (p : ParcelRow) :
    (updStatusFn pid st p).is_interim = p.is_interim := by
  unfold updStatusFn
  split <;> rfl

theorem find_parcel_congr (s' s : DBState) (h : s'.tax_duplicate = s.tax_duplicate)
    (x : String) : find_parcel s' x = find_parcel s x := by
  unfold find_parcel
  rw [h]

/-- Decomposition of the settlement balance into per-parcel contributions
and the transaction sums: the penalty charge and credit for returned or
unpaid parcels cancel, leaving each parcel's face exactly when it is in a
collected state. -/
theorem settlement_balance_eq (s : DBState) :
    settlement_balance s =
      sumz s.tax_duplicate parcelContrib + penalties_collected s
        - total_cash_collected s - discounts_allowed s - exonerations_total s := by
  unfold settlement_balance total_accountable total_credits dup_face int_face ret_face ret_pen
  rw [sumz_filter, sumz_filter, sumz_filter, sumz_filter]
  have hface : sumz s.tax_duplicate (fun p => if !p.is_interim then p.face_tax_amount else 0) +
      sumz s.tax_duplicate (fun p => if p.is_interim then p.face_tax_amount else 0) =
      sumz s.tax_duplicate (fun p => p.face_tax_amount) := by
    rw [← sumz_add]
    apply sumz_congr
    intro p _
    cases p.is_interim <;> simp
  have hcontrib : sumz s.tax_duplicate parcelContrib =
      sumz s.tax_duplicate (fun p => p.face_tax_amount) -
      sumz s.tax_duplicate (fun p =>
        if p.status == "UNPAID" || p.status == "RETURNED" then p.face_tax_amount else 0) := by
    rw [← sumz_sub]
    apply sumz_congr
    intro p _
    unfold parcelContrib
    by_cases h : (p.status == "UNPAID" || p.status == "RETURNED") = true <;> simp [h]
  linarith [hface, hcontrib]

set_option linter.unnecessarySeqFocus false in
/-- The joined sums read only the parcel's face amount, so any state change
that preserves the face view of lookups preserves each discount term. -/
theorem discTerm_eq_of_face (s' s : DBState) (t : Transaction)
    (hx : (find_parcel s' t.parcel_id).map (fun d => d.face_tax_amount) =
        (find_parcel s t.parcel_id).map (fun d => d.face_tax_amount)) :
    discTerm s' t = discTerm s t := by
  unfold discTerm
  by_cases hc : (t.transaction_type == "PAYMENT" &&
      t.payment_period == some "DISCOUNT") = true
  · rw [if_pos hc, if_pos hc]
    cases hs' : find_parcel s' t.parcel_id <;> cases hs : find_parcel s t.parcel_id <;>
        rw [hs', hs] at hx <;> simp at hx <;> simp [hx]
  · rw [if_neg hc, if_neg hc]

set_option linter.unnecessarySeqFocus false in
/-- Analogue of the previous lemma for the penalty term. -/
theorem penTerm_eq_of_face (s' s : DBState) (t : Transaction)
    (hx : (find_parcel s' t.parcel_id).map (fun d => d.face_tax_amount) =
        (find_parcel s t.parcel_id).map (fun d => d.face_tax_amount)) :
    penTerm s' t = penTerm s t := by
  unfold penTerm
  by_cases hc : (t.transaction_type == "PAYMENT" &&
      t.payment_period == some "PENALTY") = true
  · rw [if_pos hc, if_pos hc]
    cases hs' : find_parcel s' t.parcel_id <;> cases hs : find_parcel s t.parcel_id <;>
        rw [hs', hs] at hx <;> simp at hx <;> simp [hx]
  · rw [if_neg hc, if_neg hc]

/-- Face view of lookups after an id-preserving, face-preserving row map. -/
theorem find_parcel_face_map (s' s : DBState) (f : ParcelRow → ParcelRow)
    (htd : s'.tax_duplicate = s.tax_duplicate.map f)
    (hkey : ∀ p, (f p).parcel_id = p.parcel_id)
    (hface : ∀ p, (f p).face_tax_amount = p.face_tax_amount) (x : String) :
    (find_parcel s' x).map (fun d => d.face_tax_amount) =
      (find_parcel s x).map (fun d => d.face_tax_amount) := by
  unfold find_parcel
  rw [htd, findRow_map_keyPreserving f hkey]
  cases findRow s.tax_duplicate x <;> simp [hface]

/-- Face view of lookups when the parcel table is unchanged. -/
theorem find_parcel_face_congr (s' s : DBState)
    (htd : s'.tax_duplicate = s.tax_duplicate) (x : String) :
    (find_parcel s' x).map (fun d => d.face_tax_amount) =
      (find_parcel s x).map (fun d => d.face_tax_amount) := by
  rw [find_parcel_congr s' s htd]

/-- All four transaction aggregates after appending rows, for a state whose
parcel lookups have an unchanged face view. -/
theorem tx_sums_append (s' s : DBState) (L : List Transaction)
    (htx : s'.transactions = s.transactions ++ L)
    (hface : ∀ x, (find_parcel s' x).map (fun d => d.face_tax_amount) =
        (find_parcel s x).map (fun d => d.face_tax_amount)) :
    total_cash_collected s' = total_cash_collected s + sumz L cashTerm ∧
    exonerations_total s' = exonerations_total s + sumz L exonTerm ∧
    discounts_allowed s' = discounts_allowed s + sumz L (discTerm s) ∧
    penalties_collected s' = penalties_collected s + sumz L (penTerm s) := by
  refine ⟨?_, ?_, ?_, ?_⟩
  · unfold total_cash_collected
    rw [htx, sumz_append]
  · unfold exonerations_total
    rw [htx, sumz_append]
  · unfold discounts_allowed
    rw [htx, sumz_congr (fun t _ => discTerm_eq_of_face s' s t (hface t.parcel_id)),
      sumz_append]
  · unfold penalties_collected
    rw [htx, sumz_congr (fun t _ => penTerm_eq_of_face s' s t (hface t.parcel_id)),
      sumz_append]

/-- The per-parcel contribution sum after a status rewrite of the unique
row carrying the id: only that row's contribution moves. -/
theorem contrib_sum_upd (l : List ParcelRow) (pid st : String) (r : ParcelRow)
    (hnd : (l.map (fun p => p.parcel_id)).Nodup) (hfind : findRow l pid = some r) :
    sumz (l.map (updStatusFn pid st)) parcelContrib =
      sumz l parcelContrib + parcelContrib { r with status := st } - parcelContrib r := by
  rw [sumz_map]
  have hpt : ∀ p, parcelContrib (updStatusFn pid st p) =
      if p.parcel_id == pid then parcelContrib { p with status := st }
      else parcelContrib p := by
    intro p
    unfold updStatusFn
    by_cases h : p.parcel_id == pid
    · rw [if_pos h, if_pos h]
    · rw [if_neg h, if_neg h]
  rw [sumz_congr (fun p _ => hpt p)]
  unfold findRow at hfind
  exact sumz_ite_unique (fun p => p.parcel_id) pid _ _ l r hnd hfind

/-- An id absent from the table passes the INSERT OR REPLACE filter
untouched. -/
theorem filter_ne_of_not_found (l : List ParcelRow) (x : String)
    (h : findRow l x = none) : l.filter (fun q => q.parcel_id ≠ x) = l := by
  rw [List.filter_eq_self]
  intro q hq
  have := List.find?_eq_none.mp h q hq
  simpa using this

theorem closeFn_fields (m y : ℕ) (t : Transaction) :
    (closeFn m y t).transaction_type = t.transaction_type ∧
    (closeFn m y t).payment_period = t.payment_period ∧
    (closeFn m y t).amount_paid = t.amount_paid ∧
    (closeFn m y t).parcel_id = t.parcel_id := by
  unfold closeFn
  split <;> exact ⟨rfl, rfl, rfl, rfl⟩

/-- Closing a month changes no settlement aggregate and keeps the ledger
invariant: it only raises is_closed flags. -/
theorem step_close (s : DBState) (m y : ℕ) (hinv : LedgerInv s) :
    LedgerInv (close_month s m y).1 ∧
    settlement_balance (close_month s m y).1 = settlement_balance s := by
  have htd : (close_month s m y).1.tax_duplicate = s.tax_duplicate := rfl
  have htx : (close_month s m y).1.transactions = s.transactions.map (closeFn m y) := rfl
  constructor
  · obtain ⟨hnd, hcov⟩ := hinv
    refine ⟨hnd, ?_⟩
    intro t ht
    rw [htx] at ht
    rcases List.mem_map.mp ht with ⟨u, hu, rfl⟩
    obtain ⟨p, hp, hpid⟩ := hcov u hu
    exact ⟨p, hp, by rw [hpid, (closeFn_fields m y u).2.2.2]⟩
  · rw [settlement_balance_eq, settlement_balance_eq]
    have hface := find_parcel_face_congr (close_month s m y).1 s htd
    have hterm : ∀ (F : Transaction → ℤ),
        (∀ u, F (closeFn m y u) = F u) →
        sumz (close_month s m y).1.transactions F = sumz s.transactions F := by
      intro F hF
      rw [htx, sumz_map]
      exact sumz_congr (fun u _ => hF u)
    have hcash : total_cash_collected (close_month s m y).1 = total_cash_collected s := by
      unfold total_cash_collected
      apply hterm
      intro u
      unfold cashTerm
      rw [(closeFn_fields m y u).1, (closeFn_fields m y u).2.2.1]
    have hexon : exonerations_total (close_month s m y).1 = exonerations_total s := by
      unfold exonerations_total
      apply hterm
      intro u
      unfold exonTerm
      rw [(closeFn_fields m y u).1, (closeFn_fields m y u).2.2.1]
    have hdisc : discounts_allowed (close_month s m y).1 = discounts_allowed s := by
      unfold discounts_allowed
      rw [htx, sumz_map]
      apply sumz_congr
      intro u _
      rw [discTerm_eq_of_face _ s (closeFn m y u) (hface _)]
      unfold discTerm
      obtain ⟨h1, h2, h3, h4⟩ := closeFn_fields m y u
      rw [h1, h2, h3, h4]
    have hpen : penalties_collected (close_month s m y).1 = penalties_collected s := by
      unfold penalties_collected
      rw [htx, sumz_map]
      apply sumz_congr
      intro u _
      rw [penTerm_eq_of_face _ s (closeFn m y u) (hface _)]
      unfold penTerm
      obtain ⟨h1, h2, h3, h4⟩ := closeFn_fields m y u
      rw [h1, h2, h3, h4]
    rw [htd, hcash, hexon, hdisc, hpen]

/-- Appending a fresh UNPAID parcel (import or interim add) adds equal
charge and credit: the settlement balance is unchanged. -/
theorem step_new_parcel (s s' : DBState) (p : ParcelRow) (hinv : LedgerInv s)
    (htd : s'.tax_duplicate = s.tax_duplicate ++ [p])
    (htx : s'.transactions = s.transactions)
    (hstat : p.status = "UNPAID")
    (hfresh : findRow s.tax_duplicate p.parcel_id = none) :
    LedgerInv s' ∧ settlement_balance s' = settlement_balance s := by
  obtain ⟨hnd, hcov⟩ := hinv
  have hface : ∀ t ∈ s.transactions,
      (find_parcel s' t.parcel_id).map (fun d => d.face_tax_amount) =
      (find_parcel s t.parcel_id).map (fun d => d.face_tax_amount) := by
    intro t ht
    obtain ⟨q, hq, hqid⟩ := hcov t ht
    have hsome : (findRow s.tax_duplicate t.parcel_id).isSome := by
      rw [show (findRow s.tax_duplicate t.parcel_id) =
        List.find? (fun r => r.parcel_id == t.parcel_id) s.tax_duplicate from rfl]
      rw [List.find?_isSome]
      exact ⟨q, hq, by simp [hqid]⟩
    obtain ⟨r, hr⟩ := Option.isSome_iff_exists.mp hsome
    unfold find_parcel
    rw [htd, hr, findRow_append_left _ _ _ _ hr]
  constructor
  · constructor
    · rw [htd, List.map_append]
      rw [List.nodup_append]
      refine ⟨hnd, by simp, ?_⟩
      intro x hx hx'
      simp only [List.map_cons, List.map_nil, List.mem_cons, List.not_mem_nil,
        or_false] at hx'
      subst hx'
      rcases List.mem_map.mp hx with ⟨q, hq, hqid⟩
      have := List.find?_eq_none.mp hfresh q hq
      simp [hqid] at this
    · intro t ht
      rw [htx] at ht
      obtain ⟨q, hq, hqid⟩ := hcov t ht
      exact ⟨q, by rw [htd]; exact List.mem_append_left _ hq, hqid⟩
  · rw [settlement_balance_eq, settlement_balance_eq]
    have hcontrib : sumz s'.tax_duplicate parcelContrib =
        sumz s.tax_duplicate parcelContrib := by
      rw [htd, sumz_append, sumz_cons, sumz_nil]
      have : parcelContrib p = 0 := by
        unfold parcelContrib
        simp [hstat]
      rw [this]
      ring
    have hcash : total_cash_collected s' = total_cash_collected s := by
      unfold total_cash_collected
      rw [htx]
    have hexon : exonerations_total s' = exonerations_total s := by
      unfold exonerations_total
      rw [htx]
    have hdisc : discounts_allowed s' = discounts_allowed s := by
      unfold discounts_allowed
      rw [htx]
      apply sumz_congr
      intro t ht
      exact discTerm_eq_of_face s' s t (hface t ht)
    have hpen : penalties_collected s' = penalties_collected s := by
      unfold penalties_collected
      rw [htx]
      apply sumz_congr
      intro t ht
      exact penTerm_eq_of_face s' s t (hface t ht)
    rw [hcontrib, hcash, hexon, hdisc, hpen]

/-- The ledger invariant after appending rows over a status rewrite. -/
theorem inv_after_upd (s s' : DBState) (pid st : String) (L : List Transaction)
    (hinv : LedgerInv s)
    (htd : s'.tax_duplicate = s.tax_duplicate.map (updStatusFn pid st))
    (htx : s'.transactions = s.transactions ++ L)
    (hL : ∀ t ∈ L, ∃ p ∈ s.tax_duplicate, p.parcel_id = t.parcel_id) :
    LedgerInv s' := by
  obtain ⟨hnd, hcov⟩ := hinv
  constructor
  · rw [htd, List.map_map]
    have hc : ((fun p => p.parcel_id) ∘ updStatusFn pid st) =
        fun p : ParcelRow => p.parcel_id := by
      funext p
      exact updStatusFn_parcel_id pid st p
    rw [hc]
    exact hnd
  · intro t ht
    rw [htx] at ht
    rcases List.mem_append.mp ht with h | h
    · obtain ⟨p, hp, hpid⟩ := hcov t h
      exact ⟨updStatusFn pid st p, by rw [htd]; exact List.mem_map_of_mem _ hp,
        by rw [updStatusFn_parcel_id]; exact hpid⟩
    · obtain ⟨p, hp, hpid⟩ := hL t h
      exact ⟨updStatusFn pid st p, by rw [htd]; exact List.mem_map_of_mem _ hp,
        by rw [updStatusFn_parcel_id]; exact hpid⟩

/-- The ledger invariant after appending rows with the parcel table kept. -/
theorem inv_after_append (s s' : DBState) (L : List Transaction)
    (hinv : LedgerInv s)
    (htd : s'.tax_duplicate = s.tax_duplicate)
    (htx : s'.transactions = s.transactions ++ L)
    (hL : ∀ t ∈ L, ∃ p ∈ s.tax_duplicate, p.parcel_id = t.parcel_id) :
    LedgerInv s' := by
  obtain ⟨hnd, hcov⟩ := hinv
  refine ⟨by rw [htd]; exact hnd, ?_⟩
  intro t ht
  rw [htx] at ht
  rcases List.mem_append.mp ht with h | h
  · obtain ⟨p, hp, hpid⟩ := hcov t h
    exact ⟨p, by rw [htd]; exact hp, hpid⟩
  · obtain ⟨p, hp, hpid⟩ := hL t h
    exact ⟨p, by rw [htd]; exact hp, hpid⟩

/-- Settlement balance after appending rows over a status rewrite of the
unique parcel row carrying the id. -/
theorem balance_after_upd (s s' : DBState) (pid st : String) (r : ParcelRow)
    (L : List Transaction)
    (hinv : LedgerInv s)
    (htd : s'.tax_duplicate = s.tax_duplicate.map (updStatusFn pid st))
    (htx : s'.transactions = s.transactions ++ L)
    (hfind : findRow s.tax_duplicate pid = some r) :
    settlement_balance s' = settlement_balance s
      + (parcelContrib { r with status := st } - parcelContrib r)
      + sumz L (penTerm s) - sumz L cashTerm - sumz L (discTerm s) - sumz L exonTerm := by
  have hface : ∀ x, (find_parcel s' x).map (fun d => d.face_tax_amount) =
      (find_parcel s x).map (fun d => d.face_tax_amount) :=
    find_parcel_face_map s' s _ htd (updStatusFn_parcel_id pid st) (updStatusFn_face pid st)
  obtain ⟨hcash, hexon, hdisc, hpen⟩ := tx_sums_append s' s L htx hface
  rw [settlement_balance_eq, settlement_balance_eq, hcash, hexon, hdisc, hpen]
  rw [htd, contrib_sum_upd s.tax_duplicate pid st r hinv.1 hfind]
  ring

/-- Settlement balance after appending rows with the parcel table kept. -/
theorem balance_after_append (s s' : DBState) (L : List Transaction)
    (htd : s'.tax_duplicate = s.tax_duplicate)
    (htx : s'.transactions = s.transactions ++ L) :
    settlement_balance s' = settlement_balance s
      + sumz L (penTerm s) - sumz L cashTerm - sumz L (discTerm s) - sumz L exonTerm := by
  have hface := find_parcel_face_congr s' s htd
  obtain ⟨hcash, hexon, hdisc, hpen⟩ := tx_sums_append s' s L htx hface
  rw [settlement_balance_eq, settlement_balance_eq, hcash, hexon, hdisc, hpen, htd]
  ring

/-- The code ACCEPTED_FULL is only returned when the tendered amount is
exactly the period amount. -/
theorem validate_code_full (rec : ParcelRow) (amt : ℤ) (pm : Date) (i : Option ℕ)
    (h : (validate_payment rec amt pm i).code = "ACCEPTED_FULL") :
    amt = get_expected_amount (determine_period pm rec.bill_issue_date) rec := by
  by_cases h0 : amt - get_expected_amount (determine_period pm rec.bill_issue_date) rec = 0
  · omega
  · exfalso
    simp only [validate_payment] at h
    rw [if_neg h0] at h
    split_ifs at h <;> simp_all

/-- A rejected-payment append keeps the invariant and the balance. -/
theorem step_rejected (s : DBState) (d : TxData) (s' : DBState) (id : ℕ)
    (hinv : LedgerInv s)
    (h : add_transaction s d = .ok (s', id))
    (htype : d.transaction_type = some "REJECTED_PAYMENT")
    (hrow : ∃ p ∈ s.tax_duplicate, p.parcel_id = d.parcel_id) :
    LedgerInv s' ∧ settlement_balance s' = settlement_balance s := by
  have htx := (add_transaction_ok_parts s d s' id h).2.1
  have htd := add_transaction_td_other s d s' id h (by simp [htype]) (by simp [htype])
    (by simp [htype])
  constructor
  · refine inv_after_append s s' _ hinv htd htx ?_
    intro t ht
    simp only [List.mem_singleton] at ht
    subst ht
    exact hrow
  · rw [balance_after_append s s' _ htd htx]
    have hc : cashTerm (mkTransaction d id) = 0 := by simp [cashTerm, mkTransaction, htype]
    have he : exonTerm (mkTransaction d id) = 0 := by simp [exonTerm, mkTransaction, htype]
    have hd : discTerm s (mkTransaction d id) = 0 := by simp [discTerm, mkTransaction, htype]
    have hp : penTerm s (mkTransaction d id) = 0 := by simp [penTerm, mkTransaction, htype]
    simp only [sumz_cons, sumz_nil, hc, he, hd, hp]
    ring

/-- A return append on an UNPAID parcel keeps the balance: the parcel stays
in the returns credit and the RETURN row enters no aggregate. -/
theorem step_return (s : DBState) (d : TxData) (s' : DBState) (id : ℕ) (r : ParcelRow)
    (hinv : LedgerInv s)
    (h : add_transaction s d = .ok (s', id))
    (htype : d.transaction_type = some "RETURN")
    (hfind : findRow s.tax_duplicate d.parcel_id = some r)
    (hstat : r.status = "UNPAID") :
    LedgerInv s' ∧ settlement_balance s' = settlement_balance s := by
  have htx := (add_transaction_ok_parts s d s' id h).2.1
  have htd := add_transaction_td_return s d s' id h htype
  constructor
  · refine inv_after_upd s s' _ _ _ hinv htd htx ?_
    intro t ht
    simp only [List.mem_singleton] at ht
    subst ht
    exact ⟨r, findRow_mem _ _ _ hfind, findRow_key _ _ _ hfind⟩
  · rw [balance_after_upd s s' _ _ r _ hinv htd htx hfind]
    have hcontrib : parcelContrib { r with status := "RETURNED" } = parcelContrib r := by
      simp [parcelContrib, hstat]
    have hc : cashTerm (mkTransaction d id) = 0 := by simp [cashTerm, mkTransaction, htype]
    have he : exonTerm (mkTransaction d id) = 0 := by simp [exonTerm, mkTransaction, htype]
    have hd : discTerm s (mkTransaction d id) = 0 := by simp [discTerm, mkTransaction, htype]
    have hp : penTerm s (mkTransaction d id) = 0 := by simp [penTerm, mkTransaction, htype]
    simp only [sumz_cons, sumz_nil, hcontrib, hc, he, hd, hp]
    ring

/-- An exoneration of the full face amount of an UNPAID parcel keeps the
balance: the face newly charged to the parcel equals the exoneration
credit. -/
theorem step_exoneration (s : DBState) (d : TxData) (s' : DBState) (id : ℕ) (r : ParcelRow)
    (hinv : LedgerInv s)
    (h : add_transaction s d = .ok (s', id))
    (htype : d.transaction_type = some "EXONERATION")
    (hfind : findRow s.tax_duplicate d.parcel_id = some r)
    (hstat : r.status = "UNPAID")
    (hamt : d.amount_paid = r.face_tax_amount) :
    LedgerInv s' ∧ settlement_balance s' = settlement_balance s := by
  have htx := (add_transaction_ok_parts s d s' id h).2.1
  have htd := add_transaction_td_exoneration s d s' id h htype
  constructor
  · refine inv_after_upd s s' _ _ _ hinv htd htx ?_
    intro t ht
    simp only [List.mem_singleton] at ht
    subst ht
    exact ⟨r, findRow_mem _ _ _ hfind, findRow_key _ _ _ hfind⟩
  · rw [balance_after_upd s s' _ _ r _ hinv htd htx hfind]
    have hcon1 : parcelContrib { r with status := "EXONERATED" } = r.face_tax_amount := by
      simp [parcelContrib]
    have hcon0 : parcelContrib r = 0 := by simp [parcelContrib, hstat]
    have hc : cashTerm (mkTransaction d id) = 0 := by simp [cashTerm, mkTransaction, htype]
    have he : exonTerm (mkTransaction d id) = d.amount_paid := by
      simp [exonTerm, mkTransaction, htype]
    have hd : discTerm s (mkTransaction d id) = 0 := by simp [discTerm, mkTransaction, htype]
    have hp : penTerm s (mkTransaction d id) = 0 := by simp [penTerm, mkTransaction, htype]
    simp only [sumz_cons, sumz_nil, hcon1, hcon0, hc, he, hd, hp, hamt]
    ring

/-- An exact full payment of an UNPAID parcel keeps the balance, whichever
period it is accepted in: the face newly charged is offset by the cash and
the discount allowed or penalty collected. -/
theorem step_payment_full (s : DBState) (d : TxData) (s' : DBState) (id : ℕ)
    (r : ParcelRow) (π : Period)
    (hinv : LedgerInv s)
    (h : add_transaction s d = .ok (s', id))
    (htype : d.transaction_type = some "PAYMENT")
    (hbal : 10 * d.balance_remaining ≤ 9)
    (hfind : findRow s.tax_duplicate d.parcel_id = some r)
    (hstat : r.status = "UNPAID")
    (hperiod : d.payment_period = some (periodStr π))
    (hamt : d.amount_paid = get_expected_amount π r) :
    LedgerInv s' ∧ settlement_balance s' = settlement_balance s := by
  have htx := (add_transaction_ok_parts s d s' id h).2.1
  have htd0 := add_transaction_td_payment s d s' id h htype
  have htd : s'.tax_duplicate = s.tax_duplicate.map (updStatusFn d.parcel_id "PAID") := by
    rw [htd0, if_pos hbal]
  constructor
  · refine inv_after_upd s s' _ _ _ hinv htd htx ?_
    intro t ht
    simp only [List.mem_singleton] at ht
    subst ht
    exact ⟨r, findRow_mem _ _ _ hfind, findRow_key _ _ _ hfind⟩
  · rw [balance_after_upd s s' _ _ r _ hinv htd htx hfind]
    have hcon1 : parcelContrib { r with status := "PAID" } = r.face_tax_amount := by
      simp [parcelContrib]
    have hcon0 : parcelContrib r = 0 := by simp [parcelContrib, hstat]
    have hfr : find_parcel s d.parcel_id = some r := hfind
    have hc : cashTerm (mkTransaction d id) = d.amount_paid := by
      simp [cashTerm, mkTransaction, htype]
    have he : exonTerm (mkTransaction d id) = 0 := by simp [exonTerm, mkTransaction, htype]
    have hd : discTerm s (mkTransaction d id) =
        (if π = .DISCOUNT then r.face_tax_amount - d.amount_paid else 0) := by
      unfold discTerm
      cases π <;> simp [mkTransaction, htype, hperiod, periodStr, hfr]
    have hp : penTerm s (mkTransaction d id) =
        (if π = .PENALTY then d.amount_paid - r.face_tax_amount else 0) := by
      unfold penTerm
      cases π <;> simp [mkTransaction, htype, hperiod, periodStr, hfr]
    simp only [sumz_cons, sumz_nil, hcon1, hcon0, hc, he, hd, hp]
    cases π
    · rw [if_neg (show ¬ (Period.DISCOUNT = Period.PENALTY) by decide),
        if_pos (rfl : Period.DISCOUNT = Period.DISCOUNT), hamt]
      simp only [get_expected_amount]
      ring
    · rw [if_neg (show ¬ (Period.FACE = Period.PENALTY) by decide),
        if_neg (show ¬ (Period.FACE = Period.DISCOUNT) by decide), hamt]
      simp only [get_expected_amount]
      ring
    · rw [if_pos (rfl : Period.PENALTY = Period.PENALTY),
        if_neg (show ¬ (Period.PENALTY = Period.DISCOUNT) by decide), hamt]
      simp only [get_expected_amount]
      ring

/-- Each valid command preserves the ledger invariant and the exact
settlement balance. -/
theorem validOp_preserves (s : DBState) (op : LedgerOp)
    (hinv : LedgerInv s) (hv : validOp s op = true) :
    LedgerInv (applyOp s op) ∧
    settlement_balance (applyOp s op) = settlement_balance s := by
  cases op with
  | importDuplicate row =>
      have hv' : find_parcel s row.parcel_id = none := by
        simpa [validOp, Option.isNone_iff_eq_none] using hv
      have htd : (applyOp s (.importDuplicate row)).tax_duplicate =
          s.tax_duplicate ++ [importedRow row] := by
        show s.tax_duplicate.filter (fun q => q.parcel_id ≠ row.parcel_id) ++
          [importedRow row] = _
        rw [filter_ne_of_not_found s.tax_duplicate row.parcel_id hv']
      exact step_new_parcel s _ (importedRow row) hinv htd rfl rfl hv'
  | addInterim pd =>
      simp only [applyOp]
      cases hadd : add_interim_parcel s pd with
      | error e => exact ⟨hinv, rfl⟩
      | ok s' =>
          unfold add_interim_parcel at hadd
          cases hf : find_parcel s pd.parcel_id <;> rw [hf] at hadd
          · simp only [Except.ok.injEq] at hadd
            subst hadd
            exact step_new_parcel s _ _ hinv rfl rfl rfl hf
          · simp at hadd
  | pay parcel amount date check inum =>
      cases hf : find_parcel s parcel with
      | none => simp [validOp, hf] at hv
      | some row =>
          simp only [validOp, hf, Bool.not_eq_true'] at hv
          simp only [applyOp, hf]
          rw [if_neg (by simp [hv])]
          cases hadd : add_transaction s
              (rejectedTxData row amount date check
                (validate_payment row amount date inum)) with
          | error e => simp only [hadd]; exact ⟨hinv, trivial⟩
          | ok p =>
              obtain ⟨s', id⟩ := p
              simp only [hadd]
              exact step_rejected s _ s' id hinv hadd rfl
                ⟨row, findRow_mem _ _ _ hf, rfl⟩
  | appendPayment parcel amount date check =>
      cases hf : find_parcel s parcel with
      | none => simp [validOp, hf] at hv
      | some row =>
          simp only [validOp, hf, Bool.and_eq_true, beq_iff_eq] at hv
          obtain ⟨hstat, hamt⟩ := hv
          simp only [applyOp, hf]
          cases hadd : add_transaction s (paymentTxData row amount date check) with
          | error e => simp only [hadd]; exact ⟨hinv, trivial⟩
          | ok p =>
              obtain ⟨s', id⟩ := p
              simp only [hadd]
              exact step_payment_full s _ s' id row
                (determine_period date row.bill_issue_date) hinv hadd rfl
                (by norm_num [paymentTxData]) (findRow_self _ _ _ hf) hstat rfl hamt
  | exonerate parcel amount date reason =>
      cases hf : find_parcel s parcel with
      | none => simp [validOp, hf] at hv
      | some row =>
          simp only [validOp, hf, Bool.and_eq_true, beq_iff_eq] at hv
          obtain ⟨hstat, hamt⟩ := hv
          simp only [applyOp]
          cases hadd : add_transaction s (exonerationTxData parcel amount date reason) with
          | error e => simp only [hadd]; exact ⟨hinv, trivial⟩
          | ok p =>
              obtain ⟨s', id⟩ := p
              simp only [hadd]
              exact step_exoneration s _ s' id row hinv hadd rfl hf hstat hamt
  | appendReturn parcel amount date =>
      cases hf : find_parcel s parcel with
      | none => simp [validOp, hf] at hv
      | some row =>
          simp only [validOp, hf, beq_iff_eq] at hv
          simp only [applyOp]
          cases hadd : add_transaction s (returnTxData parcel amount date) with
          | error e => simp only [hadd]; exact ⟨hinv, trivial⟩
          | ok p =>
              obtain ⟨s', id⟩ := p
              simp only [hadd]
              exact step_return s _ s' id row hinv hadd rfl hf hv
  | nsf tx_id today => simp [validOp] at hv
  | closeMonth m y => exact step_close s m y hinv
  | updateParcel parcel nn na => simp [validOp] at hv

/-- Every state reached by valid commands satisfies the ledger invariant
and has settlement balance exactly zero. -/
theorem validReachable_inv_balance (s : DBState) (h : ValidReachable s) :
    LedgerInv s ∧ settlement_balance s = 0 := by
  induction h with
  | init =>
      refine ⟨⟨?_, ?_⟩, ?_⟩
      · simp [initState]
      · intro t ht
        simp [initState] at ht
      · decide
  | step s op hs hv ih =>
      obtain ⟨hinv, hbal⟩ := ih
      obtain ⟨hinv', hbal'⟩ := validOp_preserves s op hinv hv
      exact ⟨hinv', by rw [hbal', hbal]⟩

/-- C1: the settlement balance invariant, corrected.  As stated the claim
fails already on its pay operation: the CLI pay command's accepted dict
carries no transaction_type key, so add_transaction never recomputes the
parcel status, the parcel stays UNPAID and is credited back in full while
its cash and discount are also credited (see the counterexample); NSF
reversals break the balance as well.  The invariant holds for sequences
of: imports and interim adds of fresh parcels, pay commands that the
validator rejects (recorded as REJECTED_PAYMENT), spec-level PAYMENT
appends carrying the explicit row type that pay the exact full period
amount of an UNPAID parcel, full-face exonerations of UNPAID parcels,
returns of UNPAID parcels, and month closes — the reconciler's balance is
then exactly zero after every step, so the books stay within the 0.02
tolerance. -/
theorem settlement_balance_valid_ops (s : DBState) (h : ValidReachable s) :
    settlement_balance s = 0 ∧ books_balanced s := by
  have hb := validReachable_inv_balance s h
  refine ⟨hb.2, ?_⟩
  show |settlement_balance s| < 2
  rw [hb.2]
  decide

/-- Counterexample to C1 as stated: importing the scenario parcel and
running the CLI pay command with the exact discount amount — an accepted
import/pay sequence, squarely among the claim's valid operations — leaves
a settlement balance of -450.00, far outside the 0.02 tolerance.  The
accepted pay dict omits transaction_type, so the status recomputation is
skipped: the parcel stays UNPAID and its face and penalty are credited
back in full while the cash and the discount allowed are also credited. -/
theorem settlement_pay_imbalance_counterexample :
    payScenario.tax_duplicate.map (fun p => p.status) = ["UNPAID"] ∧
    settlement_balance payScenario = -45000 ∧ ¬ books_balanced payScenario := by
  refine ⟨by decide, by decide, by decide⟩

/-- Closed instance of the corrected C1 invariant: import the scenario
parcel and append its exact discount payment with the explicit PAYMENT
type; the balance is zero and the books are balanced. -/
theorem settlement_balance_valid_ops_witness :
    settlement_balance
        (applyOp (applyOp initState (.importDuplicate scenarioImport))
          (.appendPayment "P-001" 44100 ⟨2025, 4, 15⟩ "101")) = 0 ∧
    books_balanced
        (applyOp (applyOp initState (.importDuplicate scenarioImport))
          (.appendPayment "P-001" 44100 ⟨2025, 4, 15⟩ "101")) :=
  settlement_balance_valid_ops _
    (ValidReachable.step _ _
      (ValidReachable.step _ _ ValidReachable.init (by decide)) (by decide))

end TaxCommander

